import Mathlib

/-!
Shallow embedding of `src/src/lib.rs` (advent-of-code-2022-11).

The Rust source simulates rounds of monkeys inspecting and throwing items.
Machine integers (`usize` items, `u32` inspection counters) are modelled as
`Nat`: for every run considered here all intermediate values are far below
2^64 (items are reduced modulo the product of the divisors, at most 96577,
before being squared), so wrap-around never occurs and `Nat` agrees with the
machine arithmetic.  Panics (out-of-bounds indexing, `usize` underflow
followed by out-of-bounds indexing) are modelled by `Option`, with `none`
for a panicking execution.
-/

namespace AoC2022D11

/-- Rust `enum Op { Times, Plus }`. -/
inductive Op where
  | Times : Op
  | Plus : Op
deriving DecidableEq

/-- Rust `Op::on`: applies the operator to two items. -/
def Op.on : Op → Nat → Nat → Nat
  | Op.Times, item1, item2 => item1 * item2
  | Op.Plus, item1, item2 => item1 + item2

/-- Rust `enum Expr { Num(Item), Old }`: an operand of the operation line. -/
inductive Expr where
  | Num : Nat → Expr
  | Old : Expr
deriving DecidableEq

/-- Rust `Expr::or`: resolves an operand against the current item value. -/
def Expr.or : Expr → Nat → Nat
  | Expr.Num item, _ => item
  | Expr.Old, old => old

/-- Rust `struct ThrownItem { item, to_monkey }`. -/
structure ThrownItem where
  item : Nat
  to_monkey : Nat
deriving DecidableEq

/-- Rust `struct Monkey`.  The source stores `operation: Box<dyn Fn>` built in
`Monkey::new` as `move |old| op.on(expr1.or(old), expr2.or(old))`; we store the
captured data `(expr1, op, expr2)` and recover the closure as
`Monkey.operation`. -/
structure Monkey where
  items : List Nat
  op : Op
  expr1 : Expr
  expr2 : Expr
  test_mod : Nat
  num_inspections : Nat
  true_monkey_index : Nat
  false_monkey_index : Nat
deriving DecidableEq

/-- The closure built in `Monkey::new`: `|old| op.on(expr1.or(old), expr2.or(old))`. -/
def Monkey.operation (m : Monkey) (old : Nat) : Nat :=
  m.op.on (m.expr1.or old) (m.expr2.or old)

/-- Rust `Monkey::inspect_next`: pops the LAST item of the `Vec` (`Vec::pop`),
applies the operation, reduces modulo `modulo`, bumps the inspection counter,
and routes by divisibility.  Returns `none` when the queue is empty (the
source returns `None` via `?`). -/
def Monkey.inspect_next (m : Monkey) (modulo : Nat) : Option (ThrownItem × Monkey) :=
  match m.items.getLast? with
  | none => none
  | some old =>
    let new := m.operation old % modulo
    some ({ item := new,
            to_monkey :=
              if new % m.test_mod = 0 then m.true_monkey_index else m.false_monkey_index },
          { m with items := m.items.dropLast, num_inspections := m.num_inspections + 1 })

/-- Rust `Monkey::catch`: pushes the item onto the end of the `Vec`. -/
def Monkey.catchItem (m : Monkey) (item : Nat) : Monkey :=
  { m with items := m.items ++ [item] }

/-- Rust `str::split(", ")` specialised to the two-character separator used by
`Monkey::new`, at the character level: scans left to right, cutting at every
(non-overlapping) occurrence of `", "`.  `acc` holds the characters of the
current piece in reverse. -/
def splitCommaSpace : List Char → List Char → List (List Char)
  | acc, [] => [acc.reverse]
  | acc, ',' :: ' ' :: cs => acc.reverse :: splitCommaSpace [] cs
  | acc, c :: cs => splitCommaSpace (c :: acc) cs

/-- The numeric value of a decimal digit character, `none` otherwise. -/
def digitVal? (c : Char) : Option Nat :=
  if '0' ≤ c ∧ c ≤ '9' then some (c.toNat - '0'.toNat) else none

/-- Accumulating loop of decimal parsing: fails on the first non-digit. -/
def parseNatAux : List Char → Nat → Option Nat
  | [], acc => some acc
  | c :: cs, acc =>
    match digitVal? c with
    | none => none
    | some d => parseNatAux cs (acc * 10 + d)

/-- Rust `str::parse::<usize>`: non-empty all-digit strings only. -/
def parseNatChars : List Char → Option Nat
  | [] => none
  | c :: cs => parseNatAux (c :: cs) 0

/-- Rust parsing of the starting-items line in `Monkey::new`:
`items_str.split(", ").map(str::parse::<Item>)`, with `none` modelling the
`unwrap` panic on a non-numeric entry. -/
def parseStartingItems (s : String) : Option (List Nat) :=
  (splitCommaSpace [] s.data).mapM parseNatChars

/-- Routing of one thrown item in `monkey_business`:
`monkeys.split_at_mut(i)` yields `left = monkeys[0..i]` and, after the second
split, `right = monkeys[i+1..]`.  `left[to_monkey]` is `monkeys[to_monkey]`
when `to_monkey < i`; otherwise `right[to_monkey - (i + 1)]` is
`monkeys[to_monkey]` when `i < to_monkey < monkeys.len()`.  When
`to_monkey = i` the `usize` subtraction wraps and the huge index is out of
bounds, and when `to_monkey >= monkeys.len()` the index is out of bounds:
both panic, modelled by `none`. -/
def throwTo (i : Nat) (t : ThrownItem) (monkeys : List Monkey) : Option (List Monkey) :=
  if t.to_monkey < i then
    (monkeys.get? t.to_monkey).map fun om =>
      monkeys.set t.to_monkey (om.catchItem t.item)
  else if i < t.to_monkey ∧ t.to_monkey < monkeys.length then
    (monkeys.get? t.to_monkey).map fun om =>
      monkeys.set t.to_monkey (om.catchItem t.item)
  else
    none

/-- The `while let Some(thrown) = monkey[0].inspect_next(modulo)` drain loop of
`monkey_business`, for agent `i`.  Each successful iteration pops exactly one
item from agent `i`'s queue and never pushes onto it (a throw to `i` itself
panics in `throwTo`), so the loop runs exactly as many iterations as agent
`i` has queued items; `fuel` is that count in `doTurn` and the `0 => none`
branch is unreachable there (see `doTurnAux_fuel_sufficient`). -/
def doTurnAux (modulo i : Nat) : Nat → List Monkey → Option (List Monkey)
  | 0, monkeys =>
    match monkeys.get? i with
    | none => some monkeys
    | some m =>
      match m.inspect_next modulo with
      | none => some monkeys
      | some _ => none
  | fuel + 1, monkeys =>
    match monkeys.get? i with
    | none => some monkeys
    | some m =>
      match m.inspect_next modulo with
      | none => some monkeys
      | some (t, m') =>
        match throwTo i t (monkeys.set i m') with
        | none => none
        | some monkeys' => doTurnAux modulo i fuel monkeys'

/-- One agent's full turn: the drain loop started with fuel equal to the
agent's current queue length (exactly the number of iterations the Rust
loop performs). -/
def doTurn (modulo i : Nat) (monkeys : List Monkey) : Option (List Monkey) :=
  doTurnAux modulo i ((monkeys.get? i).elim 0 fun m => m.items.length) monkeys

/-- The `for i in 0..monkeys.len()` loop of `monkey_business`: `remaining`
agents still to act, the next being agent `i`.  `doRound` starts it with
`remaining = monkeys.len()` and `i = 0`, so it runs the turns of agents
`0, 1, ..., monkeys.len() - 1` in order (the length is fixed: every
operation preserves it). -/
def roundFrom (modulo : Nat) : Nat → Nat → List Monkey → Option (List Monkey)
  | 0, _, monkeys => some monkeys
  | remaining + 1, i, monkeys =>
    match doTurn modulo i monkeys with
    | none => none
    | some monkeys' => roundFrom modulo remaining (i + 1) monkeys'

/-- One complete round: all agents in list order. -/
def doRound (modulo : Nat) (monkeys : List Monkey) : Option (List Monkey) :=
  roundFrom modulo monkeys.length 0 monkeys

/-- The `for _ in 0..n_rounds` loop of `monkey_business`. -/
def doRounds (modulo : Nat) : Nat → List Monkey → Option (List Monkey)
  | 0, monkeys => some monkeys
  | n + 1, monkeys =>
    match doRound modulo monkeys with
    | none => none
    | some monkeys' => doRounds modulo n monkeys'

/-- Insertion of a value into an already ascending list, for `sortAsc`. -/
def insertSorted (a : Nat) : List Nat → List Nat
  | [] => [a]
  | b :: l => if a ≤ b then a :: b :: l else b :: insertSorted a l

/-- Rust `inspections.sort()`: sorts ascending.  On a list of `Nat` every
correct sort returns the same list, so insertion sort models `sort()`
exactly. -/
def sortAsc : List Nat → List Nat
  | [] => []
  | a :: l => insertSorted a (sortAsc l)

/-- The final aggregation of `monkey_business`: `inspections.sort()`, then
`inspections.reverse()`, then `inspections[0..=1].iter().product()`.  The
slice `[0..=1]` panics when there are fewer than two agents, modelled by
`none`. -/
def topTwoProduct (inspections : List Nat) : Option Nat :=
  match (sortAsc inspections).reverse with
  | a :: b :: _ => some (a * b)
  | _ => none

/-- Rust `monkey_business`, from the point where the monkeys are parsed: the
global modulus is the product of every `test_mod`; after the rounds the
product of the two largest inspection counts is returned. -/
def monkeyBusiness (monkeys : List Monkey) (n_rounds : Nat) : Option Nat :=
  let modulo := (monkeys.map fun m => m.test_mod).prod
  match doRounds modulo n_rounds monkeys with
  | none => none
  | some final => topTwoProduct (final.map fun m => m.num_inspections)

/-- The four example monkeys from the doc example of `monkey_business`
(lines 139-167 of `lib.rs`), as `Monkey::new` constructs them. -/
def exampleMonkeys : List Monkey :=
  [ { items := [79, 98], expr1 := Expr.Old, op := Op.Times, expr2 := Expr.Num 19,
      test_mod := 23, num_inspections := 0,
      true_monkey_index := 2, false_monkey_index := 3 },
    { items := [54, 65, 75, 74], expr1 := Expr.Old, op := Op.Plus, expr2 := Expr.Num 6,
      test_mod := 19, num_inspections := 0,
      true_monkey_index := 2, false_monkey_index := 0 },
    { items := [79, 60, 97], expr1 := Expr.Old, op := Op.Times, expr2 := Expr.Old,
      test_mod := 13, num_inspections := 0,
      true_monkey_index := 1, false_monkey_index := 3 },
    { items := [74], expr1 := Expr.Old, op := Op.Plus, expr2 := Expr.Num 3,
      test_mod := 17, num_inspections := 0,
      true_monkey_index := 0, false_monkey_index := 1 } ]

/-!
Computation accelerator for the two end-to-end scenarios.  Evaluating
`doRounds` inside the kernel is too slow for 10000 rounds, so the example
run is replayed on a specialised state `S` (the four example agents with
their parameters inlined), and `fastRound` is proved to agree with
`doRound 96577` on every such state (`doRound_toMonkeys`).  The claims
themselves are stated about `monkeyBusiness`, never about the accelerator.
-/

/-- The simulation state of the four example agents: the four queues (in the
same orientation as `Monkey.items`) and the four inspection counters. -/
structure S where
  q0 : List Nat
  q1 : List Nat
  q2 : List Nat
  q3 : List Nat
  c0 : Nat
  c1 : Nat
  c2 : Nat
  c3 : Nat
deriving DecidableEq

/-- Turn of example agent 0 (`old * 19`, divisor 23, targets 2/3), processing
the pending items (the queue read back-to-front) head first; returns the
updated queues of agents 2 and 3 and the counter of agent 0. -/
def drain0 : List Nat → List Nat → List Nat → Nat → List Nat × List Nat × Nat
  | [], q2, q3, c0 => (q2, q3, c0)
  | old :: rest, q2, q3, c0 =>
    let new := old * 19 % 96577
    if new % 23 = 0 then drain0 rest (q2 ++ [new]) q3 (c0 + 1)
    else drain0 rest q2 (q3 ++ [new]) (c0 + 1)

/-- Turn of example agent 1 (`old + 6`, divisor 19, targets 2/0). -/
def drain1 : List Nat → List Nat → List Nat → Nat → List Nat × List Nat × Nat
  | [], q2, q0, c1 => (q2, q0, c1)
  | old :: rest, q2, q0, c1 =>
    let new := (old + 6) % 96577
    if new % 19 = 0 then drain1 rest (q2 ++ [new]) q0 (c1 + 1)
    else drain1 rest q2 (q0 ++ [new]) (c1 + 1)

/-- Turn of example agent 2 (`old * old`, divisor 13, targets 1/3). -/
def drain2 : List Nat → List Nat → List Nat → Nat → List Nat × List Nat × Nat
  | [], q1, q3, c2 => (q1, q3, c2)
  | old :: rest, q1, q3, c2 =>
    let new := old * old % 96577
    if new % 13 = 0 then drain2 rest (q1 ++ [new]) q3 (c2 + 1)
    else drain2 rest q1 (q3 ++ [new]) (c2 + 1)

/-- Turn of example agent 3 (`old + 3`, divisor 17, targets 0/1). -/
def drain3 : List Nat → List Nat → List Nat → Nat → List Nat × List Nat × Nat
  | [], q0, q1, c3 => (q0, q1, c3)
  | old :: rest, q0, q1, c3 =>
    let new := (old + 3) % 96577
    if new % 17 = 0 then drain3 rest (q0 ++ [new]) q1 (c3 + 1)
    else drain3 rest q0 (q1 ++ [new]) (c3 + 1)

/-- One round of the four example agents on the specialised state.  `r0` is
agent 0's turn (updating queues 2 and 3), then agent 1's (receiving queue 2
from `r0`, throwing into the now-empty queue 0), then agent 2's, then
agent 3's. -/
def fastRound (s : S) : S :=
  let r0 := drain0 s.q0.reverse s.q2 s.q3 s.c0
  let r1 := drain1 s.q1.reverse r0.1 [] s.c1
  let r2 := drain2 r1.1.reverse [] r0.2.1 s.c2
  let r3 := drain3 r2.2.1.reverse r1.2.1 r2.1 s.c3
  { q0 := r3.1, q1 := r3.2.1, q2 := [], q3 := [],
    c0 := r0.2.2, c1 := r1.2.2, c2 := r2.2.2, c3 := r3.2.2 }

/-- Iterated `fastRound`. -/
def fastRounds : Nat → S → S
  | 0, s => s
  | n + 1, s => fastRounds n (fastRound s)

/-- Reading the specialised state back as the list of four `Monkey`s. -/
def toMonkeys (s : S) : List Monkey :=
  [ { items := s.q0, expr1 := Expr.Old, op := Op.Times, expr2 := Expr.Num 19,
      test_mod := 23, num_inspections := s.c0,
      true_monkey_index := 2, false_monkey_index := 3 },
    { items := s.q1, expr1 := Expr.Old, op := Op.Plus, expr2 := Expr.Num 6,
      test_mod := 19, num_inspections := s.c1,
      true_monkey_index := 2, false_monkey_index := 0 },
    { items := s.q2, expr1 := Expr.Old, op := Op.Times, expr2 := Expr.Old,
      test_mod := 13, num_inspections := s.c2,
      true_monkey_index := 1, false_monkey_index := 3 },
    { items := s.q3, expr1 := Expr.Old, op := Op.Plus, expr2 := Expr.Num 3,
      test_mod := 17, num_inspections := s.c3,
      true_monkey_index := 0, false_monkey_index := 1 } ]

/-- The initial specialised state, matching `exampleMonkeys`. -/
def initS : S :=
  { q0 := [79, 98], q1 := [54, 65, 75, 74], q2 := [79, 60, 97], q3 := [74],
    c0 := 0, c1 := 0, c2 := 0, c3 := 0 }

/-- Agent 0's drain loop agrees with `drain0` (pending items are the queue
reversed, since `inspect_next` pops from the back). -/
theorem turn0_aux (q : List Nat) : ∀ q1 q2 q3 c0 c1 c2 c3 : _,
    doTurnAux 96577 0 q.length (toMonkeys ⟨q, q1, q2, q3, c0, c1, c2, c3⟩) =
      some (toMonkeys ⟨[], q1, (drain0 q.reverse q2 q3 c0).1, (drain0 q.reverse q2 q3 c0).2.1,
                       (drain0 q.reverse q2 q3 c0).2.2, c1, c2, c3⟩) := by
  induction q using List.reverseRecOn with
  | nil =>
    intro q1 q2 q3 c0 c1 c2 c3
    simp [doTurnAux, toMonkeys, Monkey.inspect_next, drain0]
  | append_singleton l a ih =>
    intro q1 q2 q3 c0 c1 c2 c3
    rw [show (l ++ [a]).length = l.length + 1 by simp]
    by_cases hP : a * 19 % 96577 % 23 = 0
    · simp [doTurnAux, toMonkeys, Monkey.inspect_next, Monkey.operation, Op.on, Expr.or,
            List.getLast?_concat, List.dropLast_concat, throwTo, Monkey.catchItem, hP,
            List.reverse_append, drain0]
      exact ih q1 (q2 ++ [a * 19 % 96577]) q3 (c0 + 1) c1 c2 c3
    · simp [doTurnAux, toMonkeys, Monkey.inspect_next, Monkey.operation, Op.on, Expr.or,
            List.getLast?_concat, List.dropLast_concat, throwTo, Monkey.catchItem, hP,
            List.reverse_append, drain0]
      exact ih q1 q2 (q3 ++ [a * 19 % 96577]) (c0 + 1) c1 c2 c3

/-- Agent 1's drain loop agrees with `drain1`. -/
theorem turn1_aux (q : List Nat) : ∀ q0 q2 q3 c0 c1 c2 c3 : _,
    doTurnAux 96577 1 q.length (toMonkeys ⟨q0, q, q2, q3, c0, c1, c2, c3⟩) =
      some (toMonkeys ⟨(drain1 q.reverse q2 q0 c1).2.1, [], (drain1 q.reverse q2 q0 c1).1, q3,
                       c0, (drain1 q.reverse q2 q0 c1).2.2, c2, c3⟩) := by
  induction q using List.reverseRecOn with
  | nil =>
    intro q0 q2 q3 c0 c1 c2 c3
    simp [doTurnAux, toMonkeys, Monkey.inspect_next, drain1]
  | append_singleton l a ih =>
    intro q0 q2 q3 c0 c1 c2 c3
    rw [show (l ++ [a]).length = l.length + 1 by simp]
    by_cases hP : (a + 6) % 96577 % 19 = 0
    · simp [doTurnAux, toMonkeys, Monkey.inspect_next, Monkey.operation, Op.on, Expr.or,
            List.getLast?_concat, List.dropLast_concat, throwTo, Monkey.catchItem, hP,
            List.reverse_append, drain1]
      exact ih q0 (q2 ++ [(a + 6) % 96577]) q3 c0 (c1 + 1) c2 c3
    · simp [doTurnAux, toMonkeys, Monkey.inspect_next, Monkey.operation, Op.on, Expr.or,
            List.getLast?_concat, List.dropLast_concat, throwTo, Monkey.catchItem, hP,
            List.reverse_append, drain1]
      exact ih (q0 ++ [(a + 6) % 96577]) q2 q3 c0 (c1 + 1) c2 c3

/-- Agent 2's drain loop agrees with `drain2`. -/
theorem turn2_aux (q : List Nat) : ∀ q0 q1 q3 c0 c1 c2 c3 : _,
    doTurnAux 96577 2 q.length (toMonkeys ⟨q0, q1, q, q3, c0, c1, c2, c3⟩) =
      some (toMonkeys ⟨q0, (drain2 q.reverse q1 q3 c2).1, [], (drain2 q.reverse q1 q3 c2).2.1,
                       c0, c1, (drain2 q.reverse q1 q3 c2).2.2, c3⟩) := by
  induction q using List.reverseRecOn with
  | nil =>
    intro q0 q1 q3 c0 c1 c2 c3
    simp [doTurnAux, toMonkeys, Monkey.inspect_next, drain2]
  | append_singleton l a ih =>
    intro q0 q1 q3 c0 c1 c2 c3
    rw [show (l ++ [a]).length = l.length + 1 by simp]
    by_cases hP : a * a % 96577 % 13 = 0
    · simp [doTurnAux, toMonkeys, Monkey.inspect_next, Monkey.operation, Op.on, Expr.or,
            List.getLast?_concat, List.dropLast_concat, throwTo, Monkey.catchItem, hP,
            List.reverse_append, drain2]
      exact ih q0 (q1 ++ [a * a % 96577]) q3 c0 c1 (c2 + 1) c3
    · simp [doTurnAux, toMonkeys, Monkey.inspect_next, Monkey.operation, Op.on, Expr.or,
            List.getLast?_concat, List.dropLast_concat, throwTo, Monkey.catchItem, hP,
            List.reverse_append, drain2]
      exact ih q0 q1 (q3 ++ [a * a % 96577]) c0 c1 (c2 + 1) c3

/-- Agent 3's drain loop agrees with `drain3`. -/
theorem turn3_aux (q : List Nat) : ∀ q0 q1 q2 c0 c1 c2 c3 : _,
    doTurnAux 96577 3 q.length (toMonkeys ⟨q0, q1, q2, q, c0, c1, c2, c3⟩) =
      some (toMonkeys ⟨(drain3 q.reverse q0 q1 c3).1, (drain3 q.reverse q0 q1 c3).2.1, q2, [],
                       c0, c1, c2, (drain3 q.reverse q0 q1 c3).2.2⟩) := by
  induction q using List.reverseRecOn with
  | nil =>
    intro q0 q1 q2 c0 c1 c2 c3
    simp [doTurnAux, toMonkeys, Monkey.inspect_next, drain3]
  | append_singleton l a ih =>
    intro q0 q1 q2 c0 c1 c2 c3
    rw [show (l ++ [a]).length = l.length + 1 by simp]
    by_cases hP : (a + 3) % 96577 % 17 = 0
    · simp [doTurnAux, toMonkeys, Monkey.inspect_next, Monkey.operation, Op.on, Expr.or,
            List.getLast?_concat, List.dropLast_concat, throwTo, Monkey.catchItem, hP,
            List.reverse_append, drain3]
      exact ih (q0 ++ [(a + 3) % 96577]) q1 q2 c0 c1 c2 (c3 + 1)
    · simp [doTurnAux, toMonkeys, Monkey.inspect_next, Monkey.operation, Op.on, Expr.or,
            List.getLast?_concat, List.dropLast_concat, throwTo, Monkey.catchItem, hP,
            List.reverse_append, drain3]
      exact ih q0 (q1 ++ [(a + 3) % 96577]) q2 c0 c1 c2 (c3 + 1)

/-- `doTurn` version of `turn0_aux` (the computed fuel is the queue length). -/
theorem turn0_doTurn (q0 q1 q2 q3 : List Nat) (c0 c1 c2 c3 : Nat) :
    doTurn 96577 0 (toMonkeys ⟨q0, q1, q2, q3, c0, c1, c2, c3⟩) =
      some (toMonkeys ⟨[], q1, (drain0 q0.reverse q2 q3 c0).1, (drain0 q0.reverse q2 q3 c0).2.1,
                       (drain0 q0.reverse q2 q3 c0).2.2, c1, c2, c3⟩) :=
  turn0_aux q0 q1 q2 q3 c0 c1 c2 c3

/-- `doTurn` version of `turn1_aux`. -/
theorem turn1_doTurn (q0 q1 q2 q3 : List Nat) (c0 c1 c2 c3 : Nat) :
    doTurn 96577 1 (toMonkeys ⟨q0, q1, q2, q3, c0, c1, c2, c3⟩) =
      some (toMonkeys ⟨(drain1 q1.reverse q2 q0 c1).2.1, [], (drain1 q1.reverse q2 q0 c1).1, q3,
                       c0, (drain1 q1.reverse q2 q0 c1).2.2, c2, c3⟩) :=
  turn1_aux q1 q0 q2 q3 c0 c1 c2 c3

/-- `doTurn` version of `turn2_aux`. -/
theorem turn2_doTurn (q0 q1 q2 q3 : List Nat) (c0 c1 c2 c3 : Nat) :
    doTurn 96577 2 (toMonkeys ⟨q0, q1, q2, q3, c0, c1, c2, c3⟩) =
      some (toMonkeys ⟨q0, (drain2 q2.reverse q1 q3 c2).1, [], (drain2 q2.reverse q1 q3 c2).2.1,
                       c0, c1, (drain2 q2.reverse q1 q3 c2).2.2, c3⟩) :=
  turn2_aux q2 q0 q1 q3 c0 c1 c2 c3

/-- `doTurn` version of `turn3_aux`. -/
theorem turn3_doTurn (q0 q1 q2 q3 : List Nat) (c0 c1 c2 c3 : Nat) :
    doTurn 96577 3 (toMonkeys ⟨q0, q1, q2, q3, c0, c1, c2, c3⟩) =
      some (toMonkeys ⟨(drain3 q3.reverse q0 q1 c3).1, (drain3 q3.reverse q0 q1 c3).2.1, q2, [],
                       c0, c1, c2, (drain3 q3.reverse q0 q1 c3).2.2⟩) :=
  turn3_aux q3 q0 q1 q2 c0 c1 c2 c3

/-- One round of `doRound` on a specialised state is `fastRound`. -/
theorem doRound_toMonkeys (s : S) :
    doRound 96577 (toMonkeys s) = some (toMonkeys (fastRound s)) := by
  obtain ⟨q0, q1, q2, q3, c0, c1, c2, c3⟩ := s
  show roundFrom 96577 (3 + 1) 0 (toMonkeys ⟨q0, q1, q2, q3, c0, c1, c2, c3⟩) = _
  rw [roundFrom, turn0_doTurn]
  show roundFrom 96577 (2 + 1) 1 _ = _
  rw [roundFrom, turn1_doTurn]
  show roundFrom 96577 (1 + 1) 2 _ = _
  rw [roundFrom, turn2_doTurn]
  show roundFrom 96577 (0 + 1) 3 _ = _
  rw [roundFrom, turn3_doTurn]
  rfl

/-- `doRounds` on a specialised state is `fastRounds`. -/
theorem doRounds_toMonkeys (n : Nat) : ∀ s : S,
    doRounds 96577 n (toMonkeys s) = some (toMonkeys (fastRounds n s)) := by
  induction n with
  | zero => intro s; rfl
  | succ n ih =>
    intro s
    show (match doRound 96577 (toMonkeys s) with
          | none => none
          | some monkeys' => doRounds 96577 n monkeys') = _
    rw [doRound_toMonkeys]
    exact ih (fastRound s)

/-- Splitting an iterated `fastRound` run. -/
theorem fastRounds_add (m n : Nat) (s : S) :
    fastRounds (m + n) s = fastRounds m (fastRounds n s) := by
  induction n generalizing s with
  | zero => rfl
  | succ n ih => exact ih (fastRound s)

/-- Chaining one 100-round checkpoint. -/
theorem fastRoundsChain (n : Nat) (s s' : S) (h : fastRounds 100 s = s') :
    fastRounds (n + 100) s = fastRounds n s' := by
  rw [fastRounds_add n 100 s, h]

/-- Checkpoint state after 100 rounds of `fastRound` from `initS`. -/
def sR1 : S :=
  ⟨[73843, 20833, 36660, 77149, 56762, 57028], [32132, 94376, 91716, 78036], [], [], 509, 487, 25, 511⟩

/-- Checkpoint state after 200 rounds of `fastRound` from `initS`. -/
def sR2 : S :=
  ⟨[84673, 8559, 13100], [72982, 68631, 32132, 74445, 4677, 49479, 72279], [], [], 1029, 967, 45, 1030⟩

/-- Checkpoint state after 300 rounds of `fastRound` from `initS`. -/
def sR3 : S :=
  ⟨[49618, 38959, 7913, 82032, 85490, 94775], [72982, 94547, 47788, 90766], [], [], 1550, 1446, 64, 1547⟩

/-- Checkpoint state after 400 rounds of `fastRound` from `initS`. -/
def sR4 : S :=
  ⟨[60923, 82032, 9148, 57009, 95123, 54216, 4759, 81956, 28237], [69429], [], [], 2071, 1925, 84, 2067⟩

/-- Checkpoint state after 500 rounds of `fastRound` from `initS`. -/
def sR5 : S :=
  ⟨[31986, 45229, 57009, 54957], [58048, 83926, 54419, 94661, 65401, 20998], [], [], 2595, 2401, 104, 2590⟩

/-- Checkpoint state after 600 rounds of `fastRound` from `initS`. -/
def sR6 : S :=
  ⟨[41353, 20377, 76503, 19883], [28769, 22841, 83926, 5323, 58029, 29263], [], [], 3121, 2875, 121, 3115⟩

/-- Checkpoint state after 700 rounds of `fastRound` from `initS`. -/
def sR7 : S :=
  ⟨[91418, 61246, 54748, 56762, 15665], [79955, 22841, 60366, 49251, 91393], [], [], 3635, 3361, 142, 3627⟩

/-- Checkpoint state after 800 rounds of `fastRound` from `initS`. -/
def sR8 : S :=
  ⟨[61246, 53722, 84673, 67364, 48953], [34735, 95174, 52310, 59910, 49612], [], [], 4159, 3837, 162, 4149⟩

/-- Checkpoint state after 900 rounds of `fastRound` from `initS`. -/
def sR9 : S :=
  ⟨[82374, 53722, 85490, 42474], [54210, 32246, 64432, 55806, 66199, 21834], [], [], 4683, 4313, 180, 4671⟩

/-- Checkpoint state after 1000 rounds of `fastRound` from `initS`. -/
def sR10 : S :=
  ⟨[82374, 19275, 39396, 48934, 84464, 48307, 27591], [12752, 69429, 31980], [], [], 5204, 4792, 199, 5192⟩

/-- Checkpoint state after 1100 rounds of `fastRound` from `initS`. -/
def sR11 : S :=
  ⟨[79790, 21156, 48801, 96092, 91222, 68289], [54419, 12752, 94091, 5361], [], [], 5724, 5272, 219, 5710⟩

/-- Checkpoint state after 1200 rounds of `fastRound` from `initS`. -/
def sR12 : S :=
  ⟨[79790, 45533, 54007, 82178], [1143, 17996, 71082, 29263, 4544, 12847], [], [], 6247, 5749, 239, 6230⟩

/-- Checkpoint state after 1300 rounds of `fastRound` from `initS`. -/
def sR13 : S :=
  ⟨[52658, 9528, 54748, 83286, 63602], [1143, 23810, 3385, 61373, 2264], [], [], 6770, 6226, 257, 6752⟩

/-- Checkpoint state after 1400 rounds of `fastRound` from `initS`. -/
def sR14 : S :=
  ⟨[54463, 9528, 41372, 88986, 21346, 459], [93578, 71025, 42468, 49612], [], [], 7290, 6706, 278, 7271⟩

/-- Checkpoint state after 1500 rounds of `fastRound` from `initS`. -/
def sR15 : S :=
  ⟨[16425, 31245], [76478, 25691, 54210, 71025, 90177, 56034, 60708, 39390], [], [], 7817, 7179, 295, 7797⟩

/-- Checkpoint state after 1600 rounds of `fastRound` from `initS`. -/
def sR16 : S :=
  ⟨[90430, 34092], [76478, 53146, 86149, 18984, 64641, 11783, 70398, 31980], [], [], 8332, 7664, 317, 8309⟩

/-- Checkpoint state after 1700 rounds of `fastRound` from `initS`. -/
def sR17 : S :=
  ⟨[90430, 60296, 78422, 83818, 48801, 77757], [83242, 93179, 45527, 6330], [], [], 8854, 8142, 335, 8830⟩

/-- Checkpoint state after 1800 rounds of `fastRound` from `initS`. -/
def sR18 : S :=
  ⟨[88055, 4683, 78422, 54007, 74128], [63596, 93312, 53906, 61677, 55749], [], [], 9378, 8618, 354, 9352⟩

/-- Checkpoint state after 1900 rounds of `fastRound` from `initS`. -/
def sR19 : S :=
  ⟨[52658, 88055, 55147, 78669], [92552, 53773, 66693, 69315, 54457, 62342], [], [], 9902, 9094, 373, 9876⟩

/-- Checkpoint state after 2000 rounds of `fastRound` from `initS`. -/
def sR20 : S :=
  ⟨[24424, 40327, 70043, 18249, 25374], [95193, 42468, 66693, 70664, 53621], [], [], 10419, 9577, 392, 10391⟩

/-- Checkpoint state after 2100 rounds of `fastRound` from `initS`. -/
def sR21 : S :=
  ⟨[24424, 65407, 84730, 94667], [93521, 28655, 39390, 915, 4411, 45546], [], [], 10943, 10053, 413, 10912⟩

/-- Checkpoint state after 2200 rounds of `fastRound` from `initS`. -/
def sR22 : S :=
  ⟨[80626, 59593, 71753, 34092], [13094, 28655, 88334, 4905, 41860, 47028], [], [], 11466, 10530, 432, 11433⟩

/-- Checkpoint state after 2300 rounds of `fastRound` from `initS`. -/
def sR23 : S :=
  ⟨[56192, 59593, 62614, 5405, 69302], [95136, 49460, 74122, 45527, 7907], [], [], 11986, 11010, 451, 11953⟩

/-- Checkpoint state after 2400 rounds of `fastRound` from `initS`. -/
def sR24 : S :=
  ⟨[25203, 52316, 95180, 38408], [17293, 86453, 63596, 49460, 36008, 8401], [], [], 12512, 11484, 469, 12478⟩

/-- Checkpoint state after 2500 rounds of `fastRound` from `initS`. -/
def sR25 : S :=
  ⟨[66205, 64438, 4335], [25368, 43133, 86453, 30973, 62684, 6615, 54457], [], [], 13028, 11968, 490, 12991⟩

/-- Checkpoint state after 2600 rounds of `fastRound` from `initS`. -/
def sR26 : S :=
  ⟨[19389, 39719, 13461, 40327, 17255], [43133, 76497, 60556, 31163, 40378], [], [], 13552, 12444, 509, 13514⟩

/-- Checkpoint state after 2700 rounds of `fastRound` from `initS`. -/
def sR27 : S :=
  ⟨[54919, 5367, 14202, 13461, 84730, 8559, 2422, 34697], [71747, 91412], [], [], 14073, 12923, 528, 14033⟩

/-- Checkpoint state after 2800 rounds of `fastRound` from `initS`. -/
def sR28 : S :=
  ⟨[80626, 44127, 14202, 71088, 6051], [94547, 30840, 56186, 16153, 61050], [], [], 14597, 13399, 546, 14557⟩

/-- Checkpoint state after 2900 rounds of `fastRound` from `initS`. -/
def sR29 : S :=
  ⟨[28737, 20833, 23816, 81956, 47642], [74122, 30840, 29871, 37205, 15716], [], [], 15114, 13882, 566, 15072⟩

/-- Checkpoint state after 3000 rounds of `fastRound` from `initS`. -/
def sR30 : S :=
  ⟨[25203, 28737, 34665, 69378, 93584, 13056], [58048, 48928, 42924, 49479], [], [], 15638, 14358, 587, 15593⟩

/-- Checkpoint state after 3100 rounds of `fastRound` from `initS`. -/
def sR31 : S :=
  ⟨[46065, 36489, 56040, 20377, 61607, 25697, 13056], [25368, 47788, 78473], [], [], 16161, 14835, 606, 16114⟩

/-- Checkpoint state after 3200 rounds of `fastRound` from `initS`. -/
def sR32 : S :=
  ⟨[19389, 46065, 70404, 4759, 53152, 25355], [77352, 79955, 87232, 8553], [], [], 16681, 15315, 627, 16634⟩

/-- Checkpoint state after 3300 rounds of `fastRound` from `initS`. -/
def sR33 : S :=
  ⟨[20225, 54957, 92881], [17502, 71747, 87232, 83280, 47313, 59910, 41214], [], [], 17208, 15788, 642, 17160⟩

/-- Checkpoint state after 3400 rounds of `fastRound` from `initS`. -/
def sR34 : S :=
  ⟨[55755, 36660, 93318, 19883], [81950, 24456, 17502, 32246, 72507, 56186], [], [], 17723, 16273, 664, 17672⟩

/-- Checkpoint state after 3500 rounds of `fastRound` from `initS`. -/
def sR35 : S :=
  ⟨[38636, 69321, 30751, 53779, 48307, 47642], [24456, 49251, 92248, 72279], [], [], 18247, 16749, 685, 18195⟩

/-- Checkpoint state after 3600 rounds of `fastRound` from `initS`. -/
def sR36 : S :=
  ⟨[53627, 27654, 38959, 30751, 69378, 96092, 67364], [63159, 20371, 75319], [], [], 18769, 17227, 701, 18715⟩

/-- Checkpoint state after 3700 rounds of `fastRound` from `initS`. -/
def sR37 : S :=
  ⟨[45552, 4208, 36489, 9148], [63159, 29225, 83812, 21834, 12847, 75585], [], [], 19294, 17702, 720, 19240⟩

/-- Checkpoint state after 3800 rounds of `fastRound` from `initS`. -/
def sR38 : S :=
  ⟨[45229, 4911, 88340, 84464, 8236], [91260, 8553, 29225, 74350, 61373], [], [], 19811, 18185, 740, 19755⟩

/-- Checkpoint state after 3900 rounds of `fastRound` from `initS`. -/
def sR39 : S :=
  ⟨[20225, 32195, 77700, 95142, 459], [54628, 91260, 5323, 45584, 94091], [], [], 20335, 18661, 761, 20276⟩

/-- Checkpoint state after 4000 rounds of `fastRound` from `initS`. -/
def sR40 : S :=
  ⟨[33924, 18401, 16425, 17299, 77700], [48301, 81950, 70037, 91393, 4544], [], [], 20858, 19138, 780, 20797⟩

/-- Checkpoint state after 4100 rounds of `fastRound` from `initS`. -/
def sR41 : S :=
  ⟨[38636, 18401, 30979, 75097, 48953, 2397], [86149, 8990, 96086, 2264], [], [], 21377, 19619, 801, 21316⟩

/-- Checkpoint state after 4200 rounds of `fastRound` from `initS`. -/
def sR42 : S :=
  ⟨[41372, 60562, 76921, 78625], [43057, 20371, 8990, 55806, 93179, 7736], [], [], 21903, 20093, 817, 21841⟩

/-- Checkpoint state after 4300 rounds of `fastRound` from `initS`. -/
def sR43 : S :=
  ⟨[4208, 31245, 33728, 27591, 42449], [5399, 43057, 53906, 5000, 46021], [], [], 22420, 20576, 837, 22355⟩

/-- Checkpoint state after 4400 rounds of `fastRound` from `initS`. -/
def sR44 : S :=
  ⟨[16159, 21156, 95446, 40688, 55147, 8236, 42449], [65800, 11783, 81380], [], [], 22942, 21054, 859, 22876⟩

/-- Checkpoint state after 4500 rounds of `fastRound` from `initS`. -/
def sR45 : S :=
  ⟨[95446, 37211, 29877, 32195, 18249, 77757, 84350], [17996, 10567, 16419], [], [], 23464, 21532, 876, 23396⟩

/-- Checkpoint state after 4600 rounds of `fastRound` from `initS`. -/
def sR46 : S :=
  ⟨[70613], [48301, 10567, 79176, 25672, 3385, 39713, 61677, 4411, 53811], [], [], 23991, 22005, 894, 23923⟩

/-- Checkpoint state after 4700 rounds of `fastRound` from `initS`. -/
def sR47 : S :=
  ⟨[76066, 21346, 78669], [14443, 2416, 96086, 25672, 90861, 11612, 41860], [], [], 24507, 22489, 915, 24437⟩

/-- Checkpoint state after 4800 rounds of `fastRound` from `initS`. -/
def sR48 : S :=
  ⟨[33335, 42550, 69302, 77358, 76921], [14443, 40074, 70664, 60708, 44121], [], [], 25030, 22966, 935, 24957⟩

/-- Checkpoint state after 4900 rounds of `fastRound` from `initS`. -/
def sR49 : S :=
  ⟨[78042, 47319, 38408, 42550, 33728], [84154, 55141, 18984, 915, 26356], [], [], 25554, 23442, 953, 25479⟩

/-- Checkpoint state after 5000 rounds of `fastRound` from `initS`. -/
def sR50 : S :=
  ⟨[40688, 68637, 4335], [84154, 60689, 18243, 20504, 34659, 6330, 47028], [], [], 26075, 23921, 974, 26000⟩

/-- Checkpoint state after 5100 rounds of `fastRound` from `initS`. -/
def sR51 : S :=
  ⟨[90772, 72285, 4683, 62614, 51062], [61601, 93597, 16419, 60689, 31163], [], [], 26598, 24398, 991, 26522⟩

/-- Checkpoint state after 5200 rounds of `fastRound` from `initS`. -/
def sR52 : S :=
  ⟨[70613, 75325, 7286, 65103, 34697], [64185, 93597, 68954, 8401, 62342], [], [], 27116, 24880, 1011, 27037⟩

/-- Checkpoint state after 5300 rounds of `fastRound` from `initS`. -/
def sR53 : S :=
  ⟨[21004, 74774, 76066, 65103], [92875, 69296, 95193, 77238, 6615, 61050], [], [], 27640, 25356, 1032, 27560⟩

/-- Checkpoint state after 5400 rounds of `fastRound` from `initS`. -/
def sR54 : S :=
  ⟨[74774, 33335, 20833, 94667, 28775, 50524], [86738, 38402, 36654, 40378], [], [], 28161, 25835, 1050, 28079⟩

/-- Checkpoint state after 5500 rounds of `fastRound` from `initS`. -/
def sR55 : S :=
  ⟨[54919, 91722, 5329, 54634, 50524], [13094, 55141, 95117, 49479, 16134], [], [], 28686, 26310, 1068, 28604⟩

/-- Checkpoint state after 5600 rounds of `fastRound` from `initS`. -/
def sR56 : S :=
  ⟨[91399, 32138, 6051, 1105], [18243, 95117, 63558, 47788, 7907, 38953], [], [], 29202, 26794, 1088, 29118⟩

/-- Checkpoint state after 5700 rounds of `fastRound` from `initS`. -/
def sR57 : S :=
  ⟨[57427, 52316, 4759, 51062, 72988, 1105], [9142, 79081, 15716, 60917], [], [], 29725, 27271, 1110, 29638⟩

/-- Checkpoint state after 5800 rounds of `fastRound` from `initS`. -/
def sR58 : S :=
  ⟨[57427, 69435, 55812, 64438, 54957, 7286, 13379], [56756, 42924, 45223], [], [], 30249, 27747, 1128, 30160⟩

/-- Checkpoint state after 5900 rounds of `fastRound` from `initS`. -/
def sR59 : S :=
  ⟨[46027, 54425, 19883], [69296, 56756, 76497, 84667, 20827, 78473, 41347], [], [], 30771, 28225, 1148, 30682⟩

/-- Checkpoint state after 6000 rounds of `fastRound` from `initS`. -/
def sR60 : S :=
  ⟨[29269, 83932, 65806, 25355], [15659, 85484, 38402, 84667, 49251, 91412], [], [], 31294, 28702, 1165, 31204⟩

/-- Checkpoint state after 6100 rounds of `fastRound` from `initS`. -/
def sR61 : S :=
  ⟨[91722, 71088, 22847, 34152, 18002, 67364], [48947, 85484, 74445, 41214], [], [], 31810, 29186, 1185, 31717⟩

/-- Checkpoint state after 6200 rounds of `fastRound` from `initS`. -/
def sR62 : S :=
  ⟨[49618, 48611, 3391, 79182, 32138, 34152, 23816], [4753, 72507, 21834], [], [], 32334, 29662, 1205, 32240⟩

/-- Checkpoint state after 6300 rounds of `fastRound` from `initS`. -/
def sR63 : S :=
  ⟨[11618, 48611, 84464, 54216, 82868, 72988], [54951, 48928, 19269, 92248], [], [], 32856, 30140, 1225, 32760⟩

/-- Checkpoint state after 6400 rounds of `fastRound` from `initS`. -/
def sR64 : S :=
  ⟨[31986, 27654, 60714, 25697, 82868, 13379], [19877, 54742, 94091, 21150], [], [], 33382, 30614, 1241, 33286⟩

/-- Checkpoint state after 6500 rounds of `fastRound` from `initS`. -/
def sR65 : S :=
  ⟨[26362, 70404, 18990, 12758, 12777], [20827, 54742, 58029, 4544, 75585], [], [], 33897, 31099, 1262, 33799⟩

/-- Checkpoint state after 6600 rounds of `fastRound` from `initS`. -/
def sR66 : S :=
  ⟨[6336, 63849, 20510, 83932, 12777], [67358, 83280, 60366, 74350, 2264], [], [], 34422, 31574, 1283, 34321⟩

/-- Checkpoint state after 6700 rounds of `fastRound` from `initS`. -/
def sR67 : S :=
  ⟨[55755, 63849, 41372, 22847, 1149, 16932], [34735, 21340, 88980, 45584], [], [], 34946, 32050, 1302, 34843⟩

/-- Checkpoint state after 6800 rounds of `fastRound` from `initS`. -/
def sR68 : S :=
  ⟨[62348, 33924, 42474, 53779, 64191, 31245, 16932], [4753, 48795, 84458], [], [], 35465, 32531, 1321, 35362⟩

/-- Checkpoint state after 6900 rounds of `fastRound` from `initS`. -/
def sR69 : S :=
  ⟨[53627, 39396, 77244, 71031, 75097, 95199], [54001, 54951, 48795, 11783], [], [], 35988, 33008, 1338, 35884⟩

/-- Checkpoint state after 7000 rounds of `fastRound` from `initS`. -/
def sR70 : S :=
  ⟨[77757, 86744, 76484, 68289], [19877, 54001, 83812, 60290, 7736, 52652], [], [], 36508, 33488, 1360, 36400⟩

/-- Checkpoint state after 7100 rounds of `fastRound` from `initS`. -/
def sR71 : S :=
  ⟨[45533, 4911, 68314, 12758, 13100, 76364], [5000, 4677, 61677, 52652], [], [], 37031, 33965, 1379, 36923⟩

/-- Checkpoint state after 7200 rounds of `fastRound` from `initS`. -/
def sR72 : S :=
  ⟨[7913, 68314, 63602, 73235, 95142, 78669, 94775], [67358, 41366, 81380], [], [], 37552, 34444, 1399, 37442⟩

/-- Checkpoint state after 7300 rounds of `fastRound` from `initS`. -/
def sR73 : S :=
  ⟨[60923, 54463, 73235, 1149, 84350, 28237], [34086, 31239, 70037, 70664], [], [], 38077, 34919, 1416, 37966⟩

/-- Checkpoint state after 7400 rounds of `fastRound` from `initS`. -/
def sR74 : S :=
  ⟨[66699, 73558, 2397], [34086, 94661, 65401, 84458, 90177, 915, 53811], [], [], 38594, 35402, 1436, 38481⟩

/-- Checkpoint state after 7500 rounds of `fastRound` from `initS`. -/
def sR75 : S :=
  ⟨[41353, 64343, 60562, 71031, 76503, 73558], [77751, 64641, 90861, 47028], [], [], 39117, 35879, 1457, 39002⟩

/-- Checkpoint state after 7600 rounds of `fastRound` from `initS`. -/
def sR76 : S :=
  ⟨[91418, 64343, 62614, 28661, 15665, 28281, 76484], [83242, 5399, 40074], [], [], 39641, 36355, 1476, 39524⟩

/-- Checkpoint state after 7700 rounds of `fastRound` from `initS`. -/
def sR77 : S :=
  ⟨[16159, 78042, 74128, 28281, 76364], [78663, 40321, 95174, 52310, 8401], [], [], 40162, 36834, 1495, 40045⟩

/-- Checkpoint state after 7800 rounds of `fastRound` from `initS`. -/
def sR78 : S :=
  ⟨[37211, 49466, 68637], [92552, 84724, 41366, 40321, 64432, 6615, 66199], [], [], 40685, 37311, 1511, 40567⟩

/-- Checkpoint state after 7900 rounds of `fastRound` from `initS`. -/
def sR79 : S :=
  ⟨[90772, 19275, 48934, 86459, 25374], [31239, 84724, 39713, 80620, 40378], [], [], 41204, 37792, 1534, 41082⟩

/-- Checkpoint state after 8000 rounds of `fastRound` from `initS`. -/
def sR80 : S :=
  ⟨[54919, 34399, 66699, 43139, 91222], [93521, 2416, 68954, 5361, 80620], [], [], 41728, 38268, 1553, 41606⟩

/-- Checkpoint state after 8100 rounds of `fastRound` from `initS`. -/
def sR81 : S :=
  ⟨[21004, 34399, 71753, 6051, 82178], [77751, 71082, 62608, 44121, 25197], [], [], 42249, 38747, 1572, 42125⟩

/-- Checkpoint state after 8200 rounds of `fastRound` from `initS`. -/
def sR82 : S :=
  ⟨[41999, 56192, 47319, 83286, 28661, 28775, 76687], [23810, 15716, 25197], [], [], 42773, 39223, 1589, 42648⟩

/-- Checkpoint state after 8300 rounds of `fastRound` from `initS`. -/
def sR83 : S :=
  ⟨[41999, 30846, 88986], [78663, 93578, 34659, 42924, 16134, 36008, 19383], [], [], 43290, 39706, 1612, 43163⟩

/-- Checkpoint state after 8400 rounds of `fastRound` from `initS`. -/
def sR84 : S :=
  ⟨[49523, 49466, 63121], [25691, 61601, 62684, 63558, 56034, 78473, 19383], [], [], 43815, 40181, 1630, 43686⟩

/-- Checkpoint state after 8500 rounds of `fastRound` from `initS`. -/
def sR85 : S :=
  ⟨[49523, 75325, 69036, 86459, 25355, 17255], [53146, 79081, 70398, 54913], [], [], 44337, 40659, 1650, 44206⟩

/-- Checkpoint state after 8600 rounds of `fastRound` from `initS`. -/
def sR86 : S :=
  ⟨[69435, 60296, 83818, 8559, 69036, 43139], [47636, 92875, 6045, 41214], [], [], 44857, 41139, 1669, 44726⟩

/-- Checkpoint state after 8700 rounds of `fastRound` from `initS`. -/
def sR87 : S :=
  ⟨[87238, 54425], [47636, 94547, 93312, 36654, 69372, 62608, 72507, 55749], [], [], 45381, 41615, 1686, 45249⟩

/-- Checkpoint state after 8800 rounds of `fastRound` from `initS`. -/
def sR88 : S :=
  ⟨[29269, 17508, 81956, 54634, 76687], [53773, 69372, 36483, 92248, 69315], [], [], 45900, 42096, 1708, 45764⟩

/-- Checkpoint state after 8900 rounds of `fastRound` from `initS`. -/
def sR89 : S :=
  ⟨[27654, 56363, 70043, 30846, 24462], [58048, 74445, 36483, 38953, 53621], [], [], 46423, 42573, 1726, 46287⟩

/-- Checkpoint state after 9000 rounds of `fastRound` from `initS`. -/
def sR90 : S :=
  ⟨[49618, 56363, 65407, 20377, 63121], [25349, 9142, 20219, 75585, 45546], [], [], 46945, 43051, 1746, 46807⟩

/-- Checkpoint state after 9100 rounds of `fastRound` from `initS`. -/
def sR91 : S :=
  ⟨[95807, 54216, 63165], [79955, 88334, 74350, 4905, 20219, 54913, 45223], [], [], 47472, 43524, 1763, 47333⟩

/-- Checkpoint state after 9200 rounds of `fastRound` from `initS`. -/
def sR92 : S :=
  ⟨[31986, 95807, 46027, 29231, 5405], [95136, 6045, 45584, 59910, 38630], [], [], 47985, 44011, 1786, 47844⟩

/-- Checkpoint state after 9300 rounds of `fastRound` from `initS`. -/
def sR93 : S :=
  ⟨[33924, 11238, 95180, 87238, 65806, 91266], [17293, 32246, 58029, 38630], [], [], 48509, 44487, 1804, 48366⟩

/-- Checkpoint state after 9400 rounds of `fastRound` from `initS`. -/
def sR94 : S :=
  ⟨[66205, 11238, 17508, 75097, 48307], [48947, 30973, 60366, 27648, 4202], [], [], 49033, 44963, 1824, 48888⟩

/-- Checkpoint state after 9500 rounds of `fastRound` from `initS`. -/
def sR95 : S :=
  ⟨[39719, 96092, 79182, 24462, 59891], [34735, 8230, 60556, 7736, 4202], [], [], 49554, 45442, 1843, 49409⟩

/-- Checkpoint state after 9600 rounds of `fastRound` from `initS`. -/
def sR96 : S :=
  ⟨[5367, 11618, 8996, 42474, 2422], [25349, 8230, 32189, 5000, 12847], [], [], 50075, 45921, 1861, 49929⟩

/-- Checkpoint state after 9700 rounds of `fastRound` from `initS`. -/
def sR97 : S :=
  ⟨[38123, 44127, 39396, 43063, 63165], [32189, 81380, 21150, 16153, 61373], [], [], 50596, 46400, 1881, 50446⟩

/-- Checkpoint state after 9800 rounds of `fastRound` from `initS`. -/
def sR98 : S :=
  ⟨[38123, 26362, 66053, 29231, 84350, 459, 68289], [29871, 37205, 33918], [], [], 51119, 46877, 1901, 50968⟩

/-- Checkpoint state after 9900 rounds of `fastRound` from `initS`. -/
def sR99 : S :=
  ⟨[45533, 34665, 66053, 20510, 16425, 93584, 91266], [76915, 75091, 53811], [], [], 51639, 47357, 1921, 51487⟩

/-- Checkpoint state after 10000 rounds of `fastRound` from `initS`. -/
def sR100 : S :=
  ⟨[11941, 56040, 63602, 10573, 61607], [76915, 21340, 86149, 90861, 27648], [], [], 52166, 47830, 1938, 52013⟩

set_option maxRecDepth 1000000 in
set_option maxHeartbeats 4000000 in
/-- Replay of rounds 0 to 100. -/
theorem chunk1 : fastRounds 100 initS = sR1 := by decide

set_option maxRecDepth 1000000 in
set_option maxHeartbeats 4000000 in
/-- Replay of rounds 100 to 200. -/
theorem chunk2 : fastRounds 100 sR1 = sR2 := by decide

set_option maxRecDepth 1000000 in
set_option maxHeartbeats 4000000 in
/-- Replay of rounds 200 to 300. -/
theorem chunk3 : fastRounds 100 sR2 = sR3 := by decide

set_option maxRecDepth 1000000 in
set_option maxHeartbeats 4000000 in
/-- Replay of rounds 300 to 400. -/
theorem chunk4 : fastRounds 100 sR3 = sR4 := by decide

set_option maxRecDepth 1000000 in
set_option maxHeartbeats 4000000 in
/-- Replay of rounds 400 to 500. -/
theorem chunk5 : fastRounds 100 sR4 = sR5 := by decide

set_option maxRecDepth 1000000 in
set_option maxHeartbeats 4000000 in
/-- Replay of rounds 500 to 600. -/
theorem chunk6 : fastRounds 100 sR5 = sR6 := by decide

set_option maxRecDepth 1000000 in
set_option maxHeartbeats 4000000 in
/-- Replay of rounds 600 to 700. -/
theorem chunk7 : fastRounds 100 sR6 = sR7 := by decide

set_option maxRecDepth 1000000 in
set_option maxHeartbeats 4000000 in
/-- Replay of rounds 700 to 800. -/
theorem chunk8 : fastRounds 100 sR7 = sR8 := by decide

set_option maxRecDepth 1000000 in
set_option maxHeartbeats 4000000 in
/-- Replay of rounds 800 to 900. -/
theorem chunk9 : fastRounds 100 sR8 = sR9 := by decide

set_option maxRecDepth 1000000 in
set_option maxHeartbeats 4000000 in
/-- Replay of rounds 900 to 1000. -/
theorem chunk10 : fastRounds 100 sR9 = sR10 := by decide

set_option maxRecDepth 1000000 in
set_option maxHeartbeats 4000000 in
/-- Replay of rounds 1000 to 1100. -/
theorem chunk11 : fastRounds 100 sR10 = sR11 := by decide

set_option maxRecDepth 1000000 in
set_option maxHeartbeats 4000000 in
/-- Replay of rounds 1100 to 1200. -/
theorem chunk12 : fastRounds 100 sR11 = sR12 := by decide

set_option maxRecDepth 1000000 in
set_option maxHeartbeats 4000000 in
/-- Replay of rounds 1200 to 1300. -/
theorem chunk13 : fastRounds 100 sR12 = sR13 := by decide

set_option maxRecDepth 1000000 in
set_option maxHeartbeats 4000000 in
/-- Replay of rounds 1300 to 1400. -/
theorem chunk14 : fastRounds 100 sR13 = sR14 := by decide

set_option maxRecDepth 1000000 in
set_option maxHeartbeats 4000000 in
/-- Replay of rounds 1400 to 1500. -/
theorem chunk15 : fastRounds 100 sR14 = sR15 := by decide

set_option maxRecDepth 1000000 in
set_option maxHeartbeats 4000000 in
/-- Replay of rounds 1500 to 1600. -/
theorem chunk16 : fastRounds 100 sR15 = sR16 := by decide

set_option maxRecDepth 1000000 in
set_option maxHeartbeats 4000000 in
/-- Replay of rounds 1600 to 1700. -/
theorem chunk17 : fastRounds 100 sR16 = sR17 := by decide

set_option maxRecDepth 1000000 in
set_option maxHeartbeats 4000000 in
/-- Replay of rounds 1700 to 1800. -/
theorem chunk18 : fastRounds 100 sR17 = sR18 := by decide

set_option maxRecDepth 1000000 in
set_option maxHeartbeats 4000000 in
/-- Replay of rounds 1800 to 1900. -/
theorem chunk19 : fastRounds 100 sR18 = sR19 := by decide

set_option maxRecDepth 1000000 in
set_option maxHeartbeats 4000000 in
/-- Replay of rounds 1900 to 2000. -/
theorem chunk20 : fastRounds 100 sR19 = sR20 := by decide

set_option maxRecDepth 1000000 in
set_option maxHeartbeats 4000000 in
/-- Replay of rounds 2000 to 2100. -/
theorem chunk21 : fastRounds 100 sR20 = sR21 := by decide

set_option maxRecDepth 1000000 in
set_option maxHeartbeats 4000000 in
/-- Replay of rounds 2100 to 2200. -/
theorem chunk22 : fastRounds 100 sR21 = sR22 := by decide

set_option maxRecDepth 1000000 in
set_option maxHeartbeats 4000000 in
/-- Replay of rounds 2200 to 2300. -/
theorem chunk23 : fastRounds 100 sR22 = sR23 := by decide

set_option maxRecDepth 1000000 in
set_option maxHeartbeats 4000000 in
/-- Replay of rounds 2300 to 2400. -/
theorem chunk24 : fastRounds 100 sR23 = sR24 := by decide

set_option maxRecDepth 1000000 in
set_option maxHeartbeats 4000000 in
/-- Replay of rounds 2400 to 2500. -/
theorem chunk25 : fastRounds 100 sR24 = sR25 := by decide

set_option maxRecDepth 1000000 in
set_option maxHeartbeats 4000000 in
/-- Replay of rounds 2500 to 2600. -/
theorem chunk26 : fastRounds 100 sR25 = sR26 := by decide

set_option maxRecDepth 1000000 in
set_option maxHeartbeats 4000000 in
/-- Replay of rounds 2600 to 2700. -/
theorem chunk27 : fastRounds 100 sR26 = sR27 := by decide

set_option maxRecDepth 1000000 in
set_option maxHeartbeats 4000000 in
/-- Replay of rounds 2700 to 2800. -/
theorem chunk28 : fastRounds 100 sR27 = sR28 := by decide

set_option maxRecDepth 1000000 in
set_option maxHeartbeats 4000000 in
/-- Replay of rounds 2800 to 2900. -/
theorem chunk29 : fastRounds 100 sR28 = sR29 := by decide

set_option maxRecDepth 1000000 in
set_option maxHeartbeats 4000000 in
/-- Replay of rounds 2900 to 3000. -/
theorem chunk30 : fastRounds 100 sR29 = sR30 := by decide

set_option maxRecDepth 1000000 in
set_option maxHeartbeats 4000000 in
/-- Replay of rounds 3000 to 3100. -/
theorem chunk31 : fastRounds 100 sR30 = sR31 := by decide

set_option maxRecDepth 1000000 in
set_option maxHeartbeats 4000000 in
/-- Replay of rounds 3100 to 3200. -/
theorem chunk32 : fastRounds 100 sR31 = sR32 := by decide

set_option maxRecDepth 1000000 in
set_option maxHeartbeats 4000000 in
/-- Replay of rounds 3200 to 3300. -/
theorem chunk33 : fastRounds 100 sR32 = sR33 := by decide

set_option maxRecDepth 1000000 in
set_option maxHeartbeats 4000000 in
/-- Replay of rounds 3300 to 3400. -/
theorem chunk34 : fastRounds 100 sR33 = sR34 := by decide

set_option maxRecDepth 1000000 in
set_option maxHeartbeats 4000000 in
/-- Replay of rounds 3400 to 3500. -/
theorem chunk35 : fastRounds 100 sR34 = sR35 := by decide

set_option maxRecDepth 1000000 in
set_option maxHeartbeats 4000000 in
/-- Replay of rounds 3500 to 3600. -/
theorem chunk36 : fastRounds 100 sR35 = sR36 := by decide

set_option maxRecDepth 1000000 in
set_option maxHeartbeats 4000000 in
/-- Replay of rounds 3600 to 3700. -/
theorem chunk37 : fastRounds 100 sR36 = sR37 := by decide

set_option maxRecDepth 1000000 in
set_option maxHeartbeats 4000000 in
/-- Replay of rounds 3700 to 3800. -/
theorem chunk38 : fastRounds 100 sR37 = sR38 := by decide

set_option maxRecDepth 1000000 in
set_option maxHeartbeats 4000000 in
/-- Replay of rounds 3800 to 3900. -/
theorem chunk39 : fastRounds 100 sR38 = sR39 := by decide

set_option maxRecDepth 1000000 in
set_option maxHeartbeats 4000000 in
/-- Replay of rounds 3900 to 4000. -/
theorem chunk40 : fastRounds 100 sR39 = sR40 := by decide

set_option maxRecDepth 1000000 in
set_option maxHeartbeats 4000000 in
/-- Replay of rounds 4000 to 4100. -/
theorem chunk41 : fastRounds 100 sR40 = sR41 := by decide

set_option maxRecDepth 1000000 in
set_option maxHeartbeats 4000000 in
/-- Replay of rounds 4100 to 4200. -/
theorem chunk42 : fastRounds 100 sR41 = sR42 := by decide

set_option maxRecDepth 1000000 in
set_option maxHeartbeats 4000000 in
/-- Replay of rounds 4200 to 4300. -/
theorem chunk43 : fastRounds 100 sR42 = sR43 := by decide

set_option maxRecDepth 1000000 in
set_option maxHeartbeats 4000000 in
/-- Replay of rounds 4300 to 4400. -/
theorem chunk44 : fastRounds 100 sR43 = sR44 := by decide

set_option maxRecDepth 1000000 in
set_option maxHeartbeats 4000000 in
/-- Replay of rounds 4400 to 4500. -/
theorem chunk45 : fastRounds 100 sR44 = sR45 := by decide

set_option maxRecDepth 1000000 in
set_option maxHeartbeats 4000000 in
/-- Replay of rounds 4500 to 4600. -/
theorem chunk46 : fastRounds 100 sR45 = sR46 := by decide

set_option maxRecDepth 1000000 in
set_option maxHeartbeats 4000000 in
/-- Replay of rounds 4600 to 4700. -/
theorem chunk47 : fastRounds 100 sR46 = sR47 := by decide

set_option maxRecDepth 1000000 in
set_option maxHeartbeats 4000000 in
/-- Replay of rounds 4700 to 4800. -/
theorem chunk48 : fastRounds 100 sR47 = sR48 := by decide

set_option maxRecDepth 1000000 in
set_option maxHeartbeats 4000000 in
/-- Replay of rounds 4800 to 4900. -/
theorem chunk49 : fastRounds 100 sR48 = sR49 := by decide

set_option maxRecDepth 1000000 in
set_option maxHeartbeats 4000000 in
/-- Replay of rounds 4900 to 5000. -/
theorem chunk50 : fastRounds 100 sR49 = sR50 := by decide

set_option maxRecDepth 1000000 in
set_option maxHeartbeats 4000000 in
/-- Replay of rounds 5000 to 5100. -/
theorem chunk51 : fastRounds 100 sR50 = sR51 := by decide

set_option maxRecDepth 1000000 in
set_option maxHeartbeats 4000000 in
/-- Replay of rounds 5100 to 5200. -/
theorem chunk52 : fastRounds 100 sR51 = sR52 := by decide

set_option maxRecDepth 1000000 in
set_option maxHeartbeats 4000000 in
/-- Replay of rounds 5200 to 5300. -/
theorem chunk53 : fastRounds 100 sR52 = sR53 := by decide

set_option maxRecDepth 1000000 in
set_option maxHeartbeats 4000000 in
/-- Replay of rounds 5300 to 5400. -/
theorem chunk54 : fastRounds 100 sR53 = sR54 := by decide

set_option maxRecDepth 1000000 in
set_option maxHeartbeats 4000000 in
/-- Replay of rounds 5400 to 5500. -/
theorem chunk55 : fastRounds 100 sR54 = sR55 := by decide

set_option maxRecDepth 1000000 in
set_option maxHeartbeats 4000000 in
/-- Replay of rounds 5500 to 5600. -/
theorem chunk56 : fastRounds 100 sR55 = sR56 := by decide

set_option maxRecDepth 1000000 in
set_option maxHeartbeats 4000000 in
/-- Replay of rounds 5600 to 5700. -/
theorem chunk57 : fastRounds 100 sR56 = sR57 := by decide

set_option maxRecDepth 1000000 in
set_option maxHeartbeats 4000000 in
/-- Replay of rounds 5700 to 5800. -/
theorem chunk58 : fastRounds 100 sR57 = sR58 := by decide

set_option maxRecDepth 1000000 in
set_option maxHeartbeats 4000000 in
/-- Replay of rounds 5800 to 5900. -/
theorem chunk59 : fastRounds 100 sR58 = sR59 := by decide

set_option maxRecDepth 1000000 in
set_option maxHeartbeats 4000000 in
/-- Replay of rounds 5900 to 6000. -/
theorem chunk60 : fastRounds 100 sR59 = sR60 := by decide

set_option maxRecDepth 1000000 in
set_option maxHeartbeats 4000000 in
/-- Replay of rounds 6000 to 6100. -/
theorem chunk61 : fastRounds 100 sR60 = sR61 := by decide

set_option maxRecDepth 1000000 in
set_option maxHeartbeats 4000000 in
/-- Replay of rounds 6100 to 6200. -/
theorem chunk62 : fastRounds 100 sR61 = sR62 := by decide

set_option maxRecDepth 1000000 in
set_option maxHeartbeats 4000000 in
/-- Replay of rounds 6200 to 6300. -/
theorem chunk63 : fastRounds 100 sR62 = sR63 := by decide

set_option maxRecDepth 1000000 in
set_option maxHeartbeats 4000000 in
/-- Replay of rounds 6300 to 6400. -/
theorem chunk64 : fastRounds 100 sR63 = sR64 := by decide

set_option maxRecDepth 1000000 in
set_option maxHeartbeats 4000000 in
/-- Replay of rounds 6400 to 6500. -/
theorem chunk65 : fastRounds 100 sR64 = sR65 := by decide

set_option maxRecDepth 1000000 in
set_option maxHeartbeats 4000000 in
/-- Replay of rounds 6500 to 6600. -/
theorem chunk66 : fastRounds 100 sR65 = sR66 := by decide

set_option maxRecDepth 1000000 in
set_option maxHeartbeats 4000000 in
/-- Replay of rounds 6600 to 6700. -/
theorem chunk67 : fastRounds 100 sR66 = sR67 := by decide

set_option maxRecDepth 1000000 in
set_option maxHeartbeats 4000000 in
/-- Replay of rounds 6700 to 6800. -/
theorem chunk68 : fastRounds 100 sR67 = sR68 := by decide

set_option maxRecDepth 1000000 in
set_option maxHeartbeats 4000000 in
/-- Replay of rounds 6800 to 6900. -/
theorem chunk69 : fastRounds 100 sR68 = sR69 := by decide

set_option maxRecDepth 1000000 in
set_option maxHeartbeats 4000000 in
/-- Replay of rounds 6900 to 7000. -/
theorem chunk70 : fastRounds 100 sR69 = sR70 := by decide

set_option maxRecDepth 1000000 in
set_option maxHeartbeats 4000000 in
/-- Replay of rounds 7000 to 7100. -/
theorem chunk71 : fastRounds 100 sR70 = sR71 := by decide

set_option maxRecDepth 1000000 in
set_option maxHeartbeats 4000000 in
/-- Replay of rounds 7100 to 7200. -/
theorem chunk72 : fastRounds 100 sR71 = sR72 := by decide

set_option maxRecDepth 1000000 in
set_option maxHeartbeats 4000000 in
/-- Replay of rounds 7200 to 7300. -/
theorem chunk73 : fastRounds 100 sR72 = sR73 := by decide

set_option maxRecDepth 1000000 in
set_option maxHeartbeats 4000000 in
/-- Replay of rounds 7300 to 7400. -/
theorem chunk74 : fastRounds 100 sR73 = sR74 := by decide

set_option maxRecDepth 1000000 in
set_option maxHeartbeats 4000000 in
/-- Replay of rounds 7400 to 7500. -/
theorem chunk75 : fastRounds 100 sR74 = sR75 := by decide

set_option maxRecDepth 1000000 in
set_option maxHeartbeats 4000000 in
/-- Replay of rounds 7500 to 7600. -/
theorem chunk76 : fastRounds 100 sR75 = sR76 := by decide

set_option maxRecDepth 1000000 in
set_option maxHeartbeats 4000000 in
/-- Replay of rounds 7600 to 7700. -/
theorem chunk77 : fastRounds 100 sR76 = sR77 := by decide

set_option maxRecDepth 1000000 in
set_option maxHeartbeats 4000000 in
/-- Replay of rounds 7700 to 7800. -/
theorem chunk78 : fastRounds 100 sR77 = sR78 := by decide

set_option maxRecDepth 1000000 in
set_option maxHeartbeats 4000000 in
/-- Replay of rounds 7800 to 7900. -/
theorem chunk79 : fastRounds 100 sR78 = sR79 := by decide

set_option maxRecDepth 1000000 in
set_option maxHeartbeats 4000000 in
/-- Replay of rounds 7900 to 8000. -/
theorem chunk80 : fastRounds 100 sR79 = sR80 := by decide

set_option maxRecDepth 1000000 in
set_option maxHeartbeats 4000000 in
/-- Replay of rounds 8000 to 8100. -/
theorem chunk81 : fastRounds 100 sR80 = sR81 := by decide

set_option maxRecDepth 1000000 in
set_option maxHeartbeats 4000000 in
/-- Replay of rounds 8100 to 8200. -/
theorem chunk82 : fastRounds 100 sR81 = sR82 := by decide

set_option maxRecDepth 1000000 in
set_option maxHeartbeats 4000000 in
/-- Replay of rounds 8200 to 8300. -/
theorem chunk83 : fastRounds 100 sR82 = sR83 := by decide

set_option maxRecDepth 1000000 in
set_option maxHeartbeats 4000000 in
/-- Replay of rounds 8300 to 8400. -/
theorem chunk84 : fastRounds 100 sR83 = sR84 := by decide

set_option maxRecDepth 1000000 in
set_option maxHeartbeats 4000000 in
/-- Replay of rounds 8400 to 8500. -/
theorem chunk85 : fastRounds 100 sR84 = sR85 := by decide

set_option maxRecDepth 1000000 in
set_option maxHeartbeats 4000000 in
/-- Replay of rounds 8500 to 8600. -/
theorem chunk86 : fastRounds 100 sR85 = sR86 := by decide

set_option maxRecDepth 1000000 in
set_option maxHeartbeats 4000000 in
/-- Replay of rounds 8600 to 8700. -/
theorem chunk87 : fastRounds 100 sR86 = sR87 := by decide

set_option maxRecDepth 1000000 in
set_option maxHeartbeats 4000000 in
/-- Replay of rounds 8700 to 8800. -/
theorem chunk88 : fastRounds 100 sR87 = sR88 := by decide

set_option maxRecDepth 1000000 in
set_option maxHeartbeats 4000000 in
/-- Replay of rounds 8800 to 8900. -/
theorem chunk89 : fastRounds 100 sR88 = sR89 := by decide

set_option maxRecDepth 1000000 in
set_option maxHeartbeats 4000000 in
/-- Replay of rounds 8900 to 9000. -/
theorem chunk90 : fastRounds 100 sR89 = sR90 := by decide

set_option maxRecDepth 1000000 in
set_option maxHeartbeats 4000000 in
/-- Replay of rounds 9000 to 9100. -/
theorem chunk91 : fastRounds 100 sR90 = sR91 := by decide

set_option maxRecDepth 1000000 in
set_option maxHeartbeats 4000000 in
/-- Replay of rounds 9100 to 9200. -/
theorem chunk92 : fastRounds 100 sR91 = sR92 := by decide

set_option maxRecDepth 1000000 in
set_option maxHeartbeats 4000000 in
/-- Replay of rounds 9200 to 9300. -/
theorem chunk93 : fastRounds 100 sR92 = sR93 := by decide

set_option maxRecDepth 1000000 in
set_option maxHeartbeats 4000000 in
/-- Replay of rounds 9300 to 9400. -/
theorem chunk94 : fastRounds 100 sR93 = sR94 := by decide

set_option maxRecDepth 1000000 in
set_option maxHeartbeats 4000000 in
/-- Replay of rounds 9400 to 9500. -/
theorem chunk95 : fastRounds 100 sR94 = sR95 := by decide

set_option maxRecDepth 1000000 in
set_option maxHeartbeats 4000000 in
/-- Replay of rounds 9500 to 9600. -/
theorem chunk96 : fastRounds 100 sR95 = sR96 := by decide

set_option maxRecDepth 1000000 in
set_option maxHeartbeats 4000000 in
/-- Replay of rounds 9600 to 9700. -/
theorem chunk97 : fastRounds 100 sR96 = sR97 := by decide

set_option maxRecDepth 1000000 in
set_option maxHeartbeats 4000000 in
/-- Replay of rounds 9700 to 9800. -/
theorem chunk98 : fastRounds 100 sR97 = sR98 := by decide

set_option maxRecDepth 1000000 in
set_option maxHeartbeats 4000000 in
/-- Replay of rounds 9800 to 9900. -/
theorem chunk99 : fastRounds 100 sR98 = sR99 := by decide

set_option maxRecDepth 1000000 in
set_option maxHeartbeats 4000000 in
/-- Replay of rounds 9900 to 10000. -/
theorem chunk100 : fastRounds 100 sR99 = sR100 := by decide

/-- The full 10000-round fast run, assembled from the 100 checkpoints. -/
theorem fastRounds_total : fastRounds 10000 initS = sR100 :=
  (fastRoundsChain 9900 initS sR1 chunk1).trans
  ((fastRoundsChain 9800 sR1 sR2 chunk2).trans
  ((fastRoundsChain 9700 sR2 sR3 chunk3).trans
  ((fastRoundsChain 9600 sR3 sR4 chunk4).trans
  ((fastRoundsChain 9500 sR4 sR5 chunk5).trans
  ((fastRoundsChain 9400 sR5 sR6 chunk6).trans
  ((fastRoundsChain 9300 sR6 sR7 chunk7).trans
  ((fastRoundsChain 9200 sR7 sR8 chunk8).trans
  ((fastRoundsChain 9100 sR8 sR9 chunk9).trans
  ((fastRoundsChain 9000 sR9 sR10 chunk10).trans
  ((fastRoundsChain 8900 sR10 sR11 chunk11).trans
  ((fastRoundsChain 8800 sR11 sR12 chunk12).trans
  ((fastRoundsChain 8700 sR12 sR13 chunk13).trans
  ((fastRoundsChain 8600 sR13 sR14 chunk14).trans
  ((fastRoundsChain 8500 sR14 sR15 chunk15).trans
  ((fastRoundsChain 8400 sR15 sR16 chunk16).trans
  ((fastRoundsChain 8300 sR16 sR17 chunk17).trans
  ((fastRoundsChain 8200 sR17 sR18 chunk18).trans
  ((fastRoundsChain 8100 sR18 sR19 chunk19).trans
  ((fastRoundsChain 8000 sR19 sR20 chunk20).trans
  ((fastRoundsChain 7900 sR20 sR21 chunk21).trans
  ((fastRoundsChain 7800 sR21 sR22 chunk22).trans
  ((fastRoundsChain 7700 sR22 sR23 chunk23).trans
  ((fastRoundsChain 7600 sR23 sR24 chunk24).trans
  ((fastRoundsChain 7500 sR24 sR25 chunk25).trans
  ((fastRoundsChain 7400 sR25 sR26 chunk26).trans
  ((fastRoundsChain 7300 sR26 sR27 chunk27).trans
  ((fastRoundsChain 7200 sR27 sR28 chunk28).trans
  ((fastRoundsChain 7100 sR28 sR29 chunk29).trans
  ((fastRoundsChain 7000 sR29 sR30 chunk30).trans
  ((fastRoundsChain 6900 sR30 sR31 chunk31).trans
  ((fastRoundsChain 6800 sR31 sR32 chunk32).trans
  ((fastRoundsChain 6700 sR32 sR33 chunk33).trans
  ((fastRoundsChain 6600 sR33 sR34 chunk34).trans
  ((fastRoundsChain 6500 sR34 sR35 chunk35).trans
  ((fastRoundsChain 6400 sR35 sR36 chunk36).trans
  ((fastRoundsChain 6300 sR36 sR37 chunk37).trans
  ((fastRoundsChain 6200 sR37 sR38 chunk38).trans
  ((fastRoundsChain 6100 sR38 sR39 chunk39).trans
  ((fastRoundsChain 6000 sR39 sR40 chunk40).trans
  ((fastRoundsChain 5900 sR40 sR41 chunk41).trans
  ((fastRoundsChain 5800 sR41 sR42 chunk42).trans
  ((fastRoundsChain 5700 sR42 sR43 chunk43).trans
  ((fastRoundsChain 5600 sR43 sR44 chunk44).trans
  ((fastRoundsChain 5500 sR44 sR45 chunk45).trans
  ((fastRoundsChain 5400 sR45 sR46 chunk46).trans
  ((fastRoundsChain 5300 sR46 sR47 chunk47).trans
  ((fastRoundsChain 5200 sR47 sR48 chunk48).trans
  ((fastRoundsChain 5100 sR48 sR49 chunk49).trans
  ((fastRoundsChain 5000 sR49 sR50 chunk50).trans
  ((fastRoundsChain 4900 sR50 sR51 chunk51).trans
  ((fastRoundsChain 4800 sR51 sR52 chunk52).trans
  ((fastRoundsChain 4700 sR52 sR53 chunk53).trans
  ((fastRoundsChain 4600 sR53 sR54 chunk54).trans
  ((fastRoundsChain 4500 sR54 sR55 chunk55).trans
  ((fastRoundsChain 4400 sR55 sR56 chunk56).trans
  ((fastRoundsChain 4300 sR56 sR57 chunk57).trans
  ((fastRoundsChain 4200 sR57 sR58 chunk58).trans
  ((fastRoundsChain 4100 sR58 sR59 chunk59).trans
  ((fastRoundsChain 4000 sR59 sR60 chunk60).trans
  ((fastRoundsChain 3900 sR60 sR61 chunk61).trans
  ((fastRoundsChain 3800 sR61 sR62 chunk62).trans
  ((fastRoundsChain 3700 sR62 sR63 chunk63).trans
  ((fastRoundsChain 3600 sR63 sR64 chunk64).trans
  ((fastRoundsChain 3500 sR64 sR65 chunk65).trans
  ((fastRoundsChain 3400 sR65 sR66 chunk66).trans
  ((fastRoundsChain 3300 sR66 sR67 chunk67).trans
  ((fastRoundsChain 3200 sR67 sR68 chunk68).trans
  ((fastRoundsChain 3100 sR68 sR69 chunk69).trans
  ((fastRoundsChain 3000 sR69 sR70 chunk70).trans
  ((fastRoundsChain 2900 sR70 sR71 chunk71).trans
  ((fastRoundsChain 2800 sR71 sR72 chunk72).trans
  ((fastRoundsChain 2700 sR72 sR73 chunk73).trans
  ((fastRoundsChain 2600 sR73 sR74 chunk74).trans
  ((fastRoundsChain 2500 sR74 sR75 chunk75).trans
  ((fastRoundsChain 2400 sR75 sR76 chunk76).trans
  ((fastRoundsChain 2300 sR76 sR77 chunk77).trans
  ((fastRoundsChain 2200 sR77 sR78 chunk78).trans
  ((fastRoundsChain 2100 sR78 sR79 chunk79).trans
  ((fastRoundsChain 2000 sR79 sR80 chunk80).trans
  ((fastRoundsChain 1900 sR80 sR81 chunk81).trans
  ((fastRoundsChain 1800 sR81 sR82 chunk82).trans
  ((fastRoundsChain 1700 sR82 sR83 chunk83).trans
  ((fastRoundsChain 1600 sR83 sR84 chunk84).trans
  ((fastRoundsChain 1500 sR84 sR85 chunk85).trans
  ((fastRoundsChain 1400 sR85 sR86 chunk86).trans
  ((fastRoundsChain 1300 sR86 sR87 chunk87).trans
  ((fastRoundsChain 1200 sR87 sR88 chunk88).trans
  ((fastRoundsChain 1100 sR88 sR89 chunk89).trans
  ((fastRoundsChain 1000 sR89 sR90 chunk90).trans
  ((fastRoundsChain 900 sR90 sR91 chunk91).trans
  ((fastRoundsChain 800 sR91 sR92 chunk92).trans
  ((fastRoundsChain 700 sR92 sR93 chunk93).trans
  ((fastRoundsChain 600 sR93 sR94 chunk94).trans
  ((fastRoundsChain 500 sR94 sR95 chunk95).trans
  ((fastRoundsChain 400 sR95 sR96 chunk96).trans
  ((fastRoundsChain 300 sR96 sR97 chunk97).trans
  ((fastRoundsChain 200 sR97 sR98 chunk98).trans
  ((fastRoundsChain 100 sR98 sR99 chunk99).trans
  ((fastRoundsChain 0 sR99 sR100 chunk100))))))))))))))))))))))))))))))))))))))))))))))))))))))))))))))))))))))))))))))))))))))))))))))))))))

/-- Total number of queued items across all agents. -/
def totalItems (monkeys : List Monkey) : Nat :=
  (monkeys.map fun m => m.items.length).sum

/-- Replacing the agent at index `j` changes the item total by the difference
of the two agents' queue lengths. -/
theorem totalItems_set : ∀ (ms : List Monkey) (j : Nat) (om m' : Monkey),
    ms.get? j = some om →
    totalItems (ms.set j m') + om.items.length = totalItems ms + m'.items.length := by
  intro ms
  induction ms with
  | nil => intro j om m' h; simp [List.get?] at h
  | cons x xs ih =>
    intro j om m' h
    cases j with
    | zero =>
      rw [List.get?_cons_zero, Option.some.injEq] at h
      subst h
      simp [totalItems, List.set]
      omega
    | succ j =>
      rw [List.get?_cons_succ] at h
      have hx := ih j om m' h
      simp only [totalItems, List.set, List.map, List.sum_cons] at hx ⊢
      omega

/-- Success characterisation of `throwTo`: the destination resolves to
`monkeys[to_monkey]`, which is distinct from the acting agent. -/
theorem throwTo_spec {i : Nat} {t : ThrownItem} {ms ms' : List Monkey}
    (h : throwTo i t ms = some ms') :
    ∃ om, ms.get? t.to_monkey = some om ∧
      ms' = ms.set t.to_monkey (om.catchItem t.item) ∧ t.to_monkey ≠ i := by
  unfold throwTo at h
  split at h
  · obtain ⟨om, hom, rfl⟩ := Option.map_eq_some'.mp h
    exact ⟨om, hom, rfl, by omega⟩
  · split at h
    · obtain ⟨om, hom, rfl⟩ := Option.map_eq_some'.mp h
      rename_i hmid
      exact ⟨om, hom, rfl, by omega⟩
    · exact absurd h (by simp)

/-- A parried throw (`none`) happens exactly for a self-throw or an
out-of-range destination. -/
theorem throwTo_eq_none_iff (i : Nat) (t : ThrownItem) (ms : List Monkey) :
    throwTo i t ms = none ↔ (t.to_monkey = i ∨ ms.length ≤ t.to_monkey) := by
  unfold throwTo
  split
  · rename_i hlt
    simp only [Option.map_eq_none', List.get?_eq_none]
    omega
  · split
    · rename_i hmid
      simp only [Option.map_eq_none', List.get?_eq_none]
      omega
    · rename_i hlt hmid
      simp only [true_iff, eq_self_iff_true]
      omega

/-- `throwTo` preserves the number of agents. -/
theorem throwTo_length {i : Nat} {t : ThrownItem} {ms ms' : List Monkey}
    (h : throwTo i t ms = some ms') : ms'.length = ms.length := by
  obtain ⟨om, hom, rfl, hne⟩ := throwTo_spec h
  simp [List.length_set]

/-- `throwTo` adds exactly one queued item. -/
theorem throwTo_totalItems {i : Nat} {t : ThrownItem} {ms ms' : List Monkey}
    (h : throwTo i t ms = some ms') : totalItems ms' = totalItems ms + 1 := by
  obtain ⟨om, hom, rfl, hne⟩ := throwTo_spec h
  have hs := totalItems_set ms t.to_monkey om (om.catchItem t.item) hom
  have hc : (om.catchItem t.item).items.length = om.items.length + 1 := by
    simp [Monkey.catchItem]
  omega

/-- Popping from a queue written as `l ++ [x]`: `inspect_next` processes the
LAST element `x`, transforms and reduces it, and leaves `l` queued. -/
theorem inspect_next_concat (m : Monkey) (modulo : Nat) (l : List Nat) (x : Nat)
    (h : m.items = l ++ [x]) :
    m.inspect_next modulo =
      some ({ item := m.operation x % modulo,
              to_monkey := if m.operation x % modulo % m.test_mod = 0 then m.true_monkey_index
                           else m.false_monkey_index },
            { m with items := l, num_inspections := m.num_inspections + 1 }) := by
  unfold Monkey.inspect_next
  rw [h, List.getLast?_concat, List.dropLast_concat]

/-- Field-level description of a successful `inspect_next`. -/
theorem inspect_next_fields {m : Monkey} {modulo : Nat} {t : ThrownItem} {m' : Monkey}
    (h : m.inspect_next modulo = some (t, m')) :
    m'.items = m.items.dropLast ∧ m'.num_inspections = m.num_inspections + 1 ∧
      m.items ≠ [] ∧ m'.test_mod = m.test_mod ∧
      m'.true_monkey_index = m.true_monkey_index ∧
      m'.false_monkey_index = m.false_monkey_index := by
  unfold Monkey.inspect_next at h
  cases hg : m.items.getLast? with
  | none => rw [hg] at h; exact absurd h (by simp)
  | some old =>
    rw [hg] at h
    simp only [Option.some.injEq, Prod.mk.injEq] at h
    obtain ⟨-, hm'⟩ := h
    subst hm'
    refine ⟨rfl, rfl, ?_, rfl, rfl, rfl⟩
    intro hnil
    rw [hnil] at hg
    simp at hg

/-- A successful `inspect_next` replaces the agent by the popped-and-counted
update of itself. -/
theorem inspect_next_some_eq {m : Monkey} {modulo : Nat} {t : ThrownItem} {m' : Monkey}
    (h : m.inspect_next modulo = some (t, m')) :
    m' = { m with items := m.items.dropLast, num_inspections := m.num_inspections + 1 } ∧
      m.items ≠ [] := by
  unfold Monkey.inspect_next at h
  cases hg : m.items.getLast? with
  | none => rw [hg] at h; exact absurd h (by simp)
  | some old =>
    rw [hg] at h
    simp only [Option.some.injEq, Prod.mk.injEq] at h
    obtain ⟨-, hm'⟩ := h
    refine ⟨hm'.symm, ?_⟩
    intro hnil
    rw [hnil] at hg
    simp at hg

/-- The routing choice of a successful `inspect_next` is the divisibility test
of the reduced value against the agent's own divisor. -/
theorem inspect_next_route {m : Monkey} {modulo : Nat} {t : ThrownItem} {m' : Monkey}
    (h : m.inspect_next modulo = some (t, m')) :
    t.to_monkey = if t.item % m.test_mod = 0 then m.true_monkey_index
                  else m.false_monkey_index := by
  unfold Monkey.inspect_next at h
  cases hg : m.items.getLast? with
  | none => rw [hg] at h; exact absurd h (by simp)
  | some old =>
    rw [hg] at h
    simp only [Option.some.injEq, Prod.mk.injEq] at h
    obtain ⟨ht, -⟩ := h
    subst ht
    rfl

/-- The drain loop preserves the number of agents. -/
theorem doTurnAux_length : ∀ (fuel : Nat) {modulo i : Nat} {ms ms' : List Monkey},
    doTurnAux modulo i fuel ms = some ms' → ms'.length = ms.length := by
  intro fuel
  induction fuel with
  | zero =>
    intro modulo i ms ms' h
    unfold doTurnAux at h
    cases hg : ms.get? i with
    | none => rw [hg] at h; dsimp only at h; cases h; rfl
    | some m =>
      rw [hg] at h; dsimp only at h
      cases hi : m.inspect_next modulo with
      | none => rw [hi] at h; dsimp only at h; cases h; rfl
      | some p => rw [hi] at h; dsimp only at h; exact absurd h (by simp)
  | succ fuel ih =>
    intro modulo i ms ms' h
    unfold doTurnAux at h
    cases hg : ms.get? i with
    | none => rw [hg] at h; dsimp only at h; cases h; rfl
    | some m =>
      rw [hg] at h; dsimp only at h
      cases hi : m.inspect_next modulo with
      | none => rw [hi] at h; dsimp only at h; cases h; rfl
      | some p =>
        obtain ⟨t, m'⟩ := p
        rw [hi] at h; dsimp only at h
        cases hthrow : throwTo i t (ms.set i m') with
        | none => rw [hthrow] at h; dsimp only at h; exact absurd h (by simp)
        | some ms2 =>
          rw [hthrow] at h; dsimp only at h
          have h1 := ih h
          have h2 := throwTo_length hthrow
          simp only [List.length_set] at h2
          omega

/-- The drain loop conserves the total number of queued items. -/
theorem doTurnAux_totalItems : ∀ (fuel : Nat) {modulo i : Nat} {ms ms' : List Monkey},
    doTurnAux modulo i fuel ms = some ms' → totalItems ms' = totalItems ms := by
  intro fuel
  induction fuel with
  | zero =>
    intro modulo i ms ms' h
    unfold doTurnAux at h
    cases hg : ms.get? i with
    | none => rw [hg] at h; dsimp only at h; cases h; rfl
    | some m =>
      rw [hg] at h; dsimp only at h
      cases hi : m.inspect_next modulo with
      | none => rw [hi] at h; dsimp only at h; cases h; rfl
      | some p => rw [hi] at h; dsimp only at h; exact absurd h (by simp)
  | succ fuel ih =>
    intro modulo i ms ms' h
    unfold doTurnAux at h
    cases hg : ms.get? i with
    | none => rw [hg] at h; dsimp only at h; cases h; rfl
    | some m =>
      rw [hg] at h; dsimp only at h
      cases hi : m.inspect_next modulo with
      | none => rw [hi] at h; dsimp only at h; cases h; rfl
      | some p =>
        obtain ⟨t, m'⟩ := p
        rw [hi] at h; dsimp only at h
        cases hthrow : throwTo i t (ms.set i m') with
        | none => rw [hthrow] at h; dsimp only at h; exact absurd h (by simp)
        | some ms2 =>
          rw [hthrow] at h; dsimp only at h
          have h1 := ih h
          have h2 := throwTo_totalItems hthrow
          obtain ⟨hitems, -, hne, -⟩ := inspect_next_fields hi
          have hlen : m'.items.length + 1 = m.items.length := by
            rw [hitems, List.length_dropLast]
            have : 0 < m.items.length := List.length_pos.mpr hne
            omega
          have hset := totalItems_set ms i m m' hg
          omega

/-- After a successful drain loop the acting agent's queue is empty and its
counter has grown by exactly the number of items it had queued. -/
theorem doTurnAux_drain : ∀ (fuel : Nat) {modulo i : Nat} {ms ms' : List Monkey} {m : Monkey},
    ms.get? i = some m → doTurnAux modulo i fuel ms = some ms' →
    ms'.get? i = some { m with items := [],
                               num_inspections := m.num_inspections + m.items.length } := by
  intro fuel
  induction fuel with
  | zero =>
    intro modulo i ms ms' m hm h
    unfold doTurnAux at h
    rw [hm] at h; dsimp only at h
    cases hi : m.inspect_next modulo with
    | none =>
      rw [hi] at h; dsimp only at h
      cases h
      have hnil : m.items = [] := by
        unfold Monkey.inspect_next at hi
        cases hg : m.items.getLast? with
        | none => exact List.getLast?_eq_none_iff.mp hg
        | some old => rw [hg] at hi; exact absurd hi (by simp)
      have hrec : ({ m with items := [], num_inspections := m.num_inspections + m.items.length } : Monkey) = m := by
        cases m with
        | mk a1 a2 a3 a4 a5 a6 a7 a8 =>
          simp only at hnil
          subst hnil
          simp
      rw [hm, hrec]
    | some p => rw [hi] at h; dsimp only at h; exact absurd h (by simp)
  | succ fuel ih =>
    intro modulo i ms ms' m hm h
    unfold doTurnAux at h
    rw [hm] at h; dsimp only at h
    cases hi : m.inspect_next modulo with
    | none =>
      rw [hi] at h; dsimp only at h
      cases h
      have hnil : m.items = [] := by
        unfold Monkey.inspect_next at hi
        cases hg : m.items.getLast? with
        | none => exact List.getLast?_eq_none_iff.mp hg
        | some old => rw [hg] at hi; exact absurd hi (by simp)
      have hrec : ({ m with items := [], num_inspections := m.num_inspections + m.items.length } : Monkey) = m := by
        cases m with
        | mk a1 a2 a3 a4 a5 a6 a7 a8 =>
          simp only at hnil
          subst hnil
          simp
      rw [hm, hrec]
    | some p =>
      obtain ⟨t, m'⟩ := p
      rw [hi] at h; dsimp only at h
      cases hthrow : throwTo i t (ms.set i m') with
      | none => rw [hthrow] at h; dsimp only at h; exact absurd h (by simp)
      | some ms2 =>
        rw [hthrow] at h; dsimp only at h
        obtain ⟨om, hom, hms2, hne⟩ := throwTo_spec hthrow
        have hilt : i < ms.length := (List.get?_eq_some.mp hm).1
        have hm2 : ms2.get? i = some m' := by
          rw [hms2, List.get?_set_ne _ _ hne, List.get?_set_eq_of_lt _ hilt]
        have hfin := ih hm2 h
        obtain ⟨hm', hnonnil⟩ := inspect_next_some_eq hi
        subst hm'
        have hpos : 0 < m.items.length := List.length_pos.mpr hnonnil
        rw [hfin]
        cases m with
        | mk a1 a2 a3 a4 a5 a6 a7 a8 =>
          simp only at hpos
          dsimp only
          simp only [Option.some.injEq, Monkey.mk.injEq, List.length_dropLast, true_and, and_true]
          omega

/-- The per-round agent loop preserves the number of agents. -/
theorem roundFrom_length : ∀ (remaining : Nat) {modulo i : Nat} {ms ms' : List Monkey},
    roundFrom modulo remaining i ms = some ms' → ms'.length = ms.length := by
  intro remaining
  induction remaining with
  | zero => intro modulo i ms ms' h; cases h; rfl
  | succ remaining ih =>
    intro modulo i ms ms' h
    unfold roundFrom at h
    cases ht : doTurn modulo i ms with
    | none => rw [ht] at h; dsimp only at h; exact absurd h (by simp)
    | some ms2 =>
      rw [ht] at h; dsimp only at h
      have h1 := ih h
      have h2 := doTurnAux_length _ ht
      omega

/-- A whole round preserves the number of agents. -/
theorem doRound_length {modulo : Nat} {ms ms' : List Monkey}
    (h : doRound modulo ms = some ms') : ms'.length = ms.length :=
  roundFrom_length _ h

/-- Any number of rounds preserves the number of agents. -/
theorem doRounds_length : ∀ (n : Nat) {modulo : Nat} {ms ms' : List Monkey},
    doRounds modulo n ms = some ms' → ms'.length = ms.length := by
  intro n
  induction n with
  | zero => intro modulo ms ms' h; cases h; rfl
  | succ n ih =>
    intro modulo ms ms' h
    unfold doRounds at h
    cases hr : doRound modulo ms with
    | none => rw [hr] at h; dsimp only at h; exact absurd h (by simp)
    | some ms2 =>
      rw [hr] at h; dsimp only at h
      have h1 := ih h
      have h2 := doRound_length hr
      omega

/-- The per-round agent loop conserves the total number of queued items. -/
theorem roundFrom_totalItems : ∀ (remaining : Nat) {modulo i : Nat} {ms ms' : List Monkey},
    roundFrom modulo remaining i ms = some ms' → totalItems ms' = totalItems ms := by
  intro remaining
  induction remaining with
  | zero => intro modulo i ms ms' h; cases h; rfl
  | succ remaining ih =>
    intro modulo i ms ms' h
    unfold roundFrom at h
    cases ht : doTurn modulo i ms with
    | none => rw [ht] at h; dsimp only at h; exact absurd h (by simp)
    | some ms2 =>
      rw [ht] at h; dsimp only at h
      have h1 := ih h
      have h2 := doTurnAux_totalItems _ ht
      omega

/-- Inserting grows the length by one. -/
theorem length_insertSorted (a : Nat) : ∀ l : List Nat,
    (insertSorted a l).length = l.length + 1 := by
  intro l
  induction l with
  | nil => rfl
  | cons b l ih =>
    unfold insertSorted
    split
    · simp
    · simp [ih]

/-- Sorting preserves the length. -/
theorem length_sortAsc : ∀ l : List Nat, (sortAsc l).length = l.length := by
  intro l
  induction l with
  | nil => rfl
  | cons a l ih => simp only [sortAsc, length_insertSorted, ih, List.length_cons]

/-- Inserting `0` into a run of zeros extends the run. -/
theorem insertSorted_zero_replicate : ∀ k : Nat,
    insertSorted 0 (List.replicate k 0) = List.replicate (k + 1) 0 := by
  intro k
  cases k with
  | zero => rfl
  | succ k => simp [List.replicate_succ, insertSorted]

/-- Sorting a run of zeros is the identity. -/
theorem sortAsc_replicate_zero : ∀ n : Nat,
    sortAsc (List.replicate n 0) = List.replicate n 0 := by
  intro n
  induction n with
  | zero => rfl
  | succ n ih =>
    rw [List.replicate_succ]
    simp only [sortAsc]
    rw [ih, insertSorted_zero_replicate]
    rw [List.replicate_succ]

/-- Written after the spec's wording: the destination an agent selects when the
divisibility test is evaluated with unbounded-precision arithmetic, i.e. on
the transformed value with no modulus reduction applied first. -/
def routeUnbounded (m : Monkey) (old : Nat) : Nat :=
  if m.operation old % m.test_mod = 0 then m.true_monkey_index else m.false_monkey_index

/-- The first example agent (`Monkey 0` of the doc example). -/
def exMonkey0 : Monkey :=
  { items := [79, 98], op := Op.Times, expr1 := Expr.Old, expr2 := Expr.Num 19,
    test_mod := 23, num_inspections := 0, true_monkey_index := 2, false_monkey_index := 3 }

/-- An agent that routes every item to itself (both branch targets are its own
index 0), triggering the `to_monkey - (i + 1)` underflow panic. -/
def selfMonkey : Monkey :=
  { items := [5], op := Op.Plus, expr1 := Expr.Old, expr2 := Expr.Num 0,
    test_mod := 1, num_inspections := 0, true_monkey_index := 0, false_monkey_index := 0 }

/-- The specialised state after 20 rounds. -/
def s20 : S :=
  ⟨[95446, 7723, 61208, 82089, 84350], [20200, 60575, 10567, 84591, 55901], [], [],
   99, 97, 8, 103⟩

/-- Unfolding `monkeyBusiness` along a successful run of the rounds. -/
theorem monkeyBusiness_of_doRounds (ms fin : List Monkey) (n : Nat)
    (h : doRounds ((ms.map fun m => m.test_mod).prod) n ms = some fin) :
    monkeyBusiness ms n = topTwoProduct (fin.map fun m => m.num_inspections) := by
  simp only [monkeyBusiness]
  rw [h]

/-- Unfolding `monkeyBusiness` along a panicking run of the rounds. -/
theorem monkeyBusiness_none_of_doRounds (ms : List Monkey) (n : Nat)
    (h : doRounds ((ms.map fun m => m.test_mod).prod) n ms = none) :
    monkeyBusiness ms n = none := by
  simp only [monkeyBusiness]
  rw [h]

set_option maxRecDepth 1000000 in
set_option maxHeartbeats 1000000 in
/-- The fast run over the first 20 rounds. -/
theorem fastRounds20 : fastRounds 20 initS = s20 := by decide

/-- The first 20 rounds of `doRounds`, via the fast replay. -/
theorem doRounds_example_20 :
    doRounds ((exampleMonkeys.map fun m => m.test_mod).prod) 20 exampleMonkeys =
      some (toMonkeys s20) := by
  rw [show ((exampleMonkeys.map fun m => m.test_mod).prod) = 96577 from rfl,
      show exampleMonkeys = toMonkeys initS from rfl]
  have hb := doRounds_toMonkeys 20 initS
  rw [fastRounds20] at hb
  exact hb

/-- The full 10000 rounds of `doRounds`, via the fast replay. -/
theorem doRounds_example_10000 :
    doRounds ((exampleMonkeys.map fun m => m.test_mod).prod) 10000 exampleMonkeys =
      some (toMonkeys sR100) := by
  rw [show ((exampleMonkeys.map fun m => m.test_mod).prod) = 96577 from rfl,
      show exampleMonkeys = toMonkeys initS from rfl]
  have hb := doRounds_toMonkeys 10000 initS
  rw [fastRounds_total] at hb
  exact hb

/-- C1: the four-agent doc example run for 10000 rounds scores 2713310158. -/
theorem monkey_business_example_10000 :
    monkeyBusiness exampleMonkeys 10000 = some 2713310158 := by
  rw [monkeyBusiness_of_doRounds _ _ _ doRounds_example_10000]
  decide

/-- C2 counterexample: 20 rounds of the four-agent example do NOT score 10605
(that value belongs to the variant that divides worry levels by 3, which this
code does not implement). -/
theorem monkey_business_example_20_ne_10605 :
    monkeyBusiness exampleMonkeys 20 ≠ some 10605 := by
  rw [monkeyBusiness_of_doRounds _ _ _ doRounds_example_20]
  decide

/-- C2 (amended): 20 rounds of the four-agent example score 10197
(inspection counts 99, 97, 8, 103; top two 103 and 99). -/
theorem monkey_business_example_20 :
    monkeyBusiness exampleMonkeys 20 = some 10197 := by
  rw [monkeyBusiness_of_doRounds _ _ _ doRounds_example_20]
  decide

/-- C3: when the agent's divisor divides the modulus, reduction changes
neither the divisibility outcome nor the routed destination, which equals the
unbounded-precision route of the popped item. -/
theorem modulus_transparent_routing (m m' : Monkey) (modulo : Nat) (t : ThrownItem)
    (l : List Nat) (x : Nat) (hdvd : m.test_mod ∣ modulo) (hx : m.items = l ++ [x])
    (h : m.inspect_next modulo = some (t, m')) :
    t.to_monkey = routeUnbounded m x ∧
      (m.operation x % modulo % m.test_mod = 0 ↔ m.operation x % m.test_mod = 0) := by
  have hmod : m.operation x % modulo % m.test_mod = m.operation x % m.test_mod :=
    Nat.mod_mod_of_dvd _ hdvd
  constructor
  · rw [inspect_next_concat m modulo l x hx] at h
    simp only [Option.some.injEq, Prod.mk.injEq] at h
    obtain ⟨ht, -⟩ := h
    rw [← ht]
    dsimp only
    rw [hmod]
    rfl
  · rw [hmod]

/-- C3 witness at the first example agent and item 98. -/
theorem modulus_transparent_routing_witness :
    (⟨1862, 3⟩ : ThrownItem).to_monkey = routeUnbounded exMonkey0 98 ∧
      (exMonkey0.operation 98 % 96577 % exMonkey0.test_mod = 0 ↔
        exMonkey0.operation 98 % exMonkey0.test_mod = 0) :=
  modulus_transparent_routing exMonkey0
    { exMonkey0 with items := [79], num_inspections := 1 } 96577 ⟨1862, 3⟩ [79] 98
    (by decide) rfl rfl

/-- C4: one round conserves the total number of queued items. -/
theorem round_preserves_total_items (modulo : Nat) (ms ms' : List Monkey)
    (h : doRound modulo ms = some ms') : totalItems ms' = totalItems ms :=
  roundFrom_totalItems _ h

/-- C4 witness: the first example round keeps all ten items. -/
theorem round_preserves_total_items_witness :
    totalItems (toMonkeys (fastRound initS)) = totalItems (toMonkeys initS) :=
  round_preserves_total_items 96577 (toMonkeys initS) (toMonkeys (fastRound initS))
    (doRound_toMonkeys initS)

/-- C5: an inspection pops the LAST queued element (`Vec::pop`), and the
starting-items line parses in listed order, so the last-listed starting item
is processed first. -/
theorem inspect_next_pops_last (m : Monkey) (modulo : Nat) (l : List Nat) (x : Nat)
    (h : m.items = l ++ [x]) :
    m.inspect_next modulo =
      some ({ item := m.operation x % modulo,
              to_monkey := if m.operation x % modulo % m.test_mod = 0 then m.true_monkey_index
                           else m.false_monkey_index },
            { m with items := l, num_inspections := m.num_inspections + 1 })
    ∧ parseStartingItems "79, 98" = some [79, 98]
    ∧ parseStartingItems "54, 65, 75, 74" = some [54, 65, 75, 74]
    ∧ parseStartingItems "79, 60, 97" = some [79, 60, 97]
    ∧ parseStartingItems "74" = some [74] :=
  ⟨inspect_next_concat m modulo l x h, by decide, by decide, by decide, by decide⟩

/-- C5 witness: the first example agent processes 98 (the last-listed item)
first. -/
theorem inspect_next_pops_last_witness :
    exMonkey0.inspect_next 96577 =
      some ({ item := exMonkey0.operation 98 % 96577,
              to_monkey := if exMonkey0.operation 98 % 96577 % exMonkey0.test_mod = 0
                           then exMonkey0.true_monkey_index
                           else exMonkey0.false_monkey_index },
            { exMonkey0 with items := [79], num_inspections := exMonkey0.num_inspections + 1 })
    ∧ parseStartingItems "79, 98" = some [79, 98]
    ∧ parseStartingItems "54, 65, 75, 74" = some [54, 65, 75, 74]
    ∧ parseStartingItems "79, 60, 97" = some [79, 60, 97]
    ∧ parseStartingItems "74" = some [74] :=
  inspect_next_pops_last exMonkey0 96577 [79] 98 rfl

/-- C6: a successful turn leaves the acting agent's queue empty and raises its
counter by exactly the number of items it had queued when the turn began. -/
theorem turn_drains_queue (modulo i : Nat) (ms ms' : List Monkey) (m : Monkey)
    (hm : ms.get? i = some m) (h : doTurn modulo i ms = some ms') :
    ms'.get? i =
      some { m with items := [], num_inspections := m.num_inspections + m.items.length } :=
  doTurnAux_drain _ hm h

/-- C6 witness: agent 0's first turn drains both starting items. -/
theorem turn_drains_queue_witness :
    ((doTurn 96577 0 (toMonkeys initS)).getD []).get? 0 =
      some { exMonkey0 with items := [],
                            num_inspections := exMonkey0.num_inspections + exMonkey0.items.length } :=
  turn_drains_queue 96577 0 (toMonkeys initS) ((doTurn 96577 0 (toMonkeys initS)).getD [])
    exMonkey0 rfl rfl

/-- C7: the chosen destination is the true branch exactly when the reduced
value is divisible by the agent's own divisor. -/
theorem destination_matches_divisibility (m m' : Monkey) (modulo : Nat) (t : ThrownItem)
    (h : m.inspect_next modulo = some (t, m')) :
    t.to_monkey = if t.item % m.test_mod = 0 then m.true_monkey_index
                  else m.false_monkey_index :=
  inspect_next_route h

/-- C7 witness at the first example agent. -/
theorem destination_matches_divisibility_witness :
    (⟨1862, 3⟩ : ThrownItem).to_monkey =
      if (⟨1862, 3⟩ : ThrownItem).item % exMonkey0.test_mod = 0 then exMonkey0.true_monkey_index
      else exMonkey0.false_monkey_index :=
  destination_matches_divisibility exMonkey0
    { exMonkey0 with items := [79], num_inspections := 1 } 96577 ⟨1862, 3⟩ rfl

/-- C8: zero rounds with at least two agents and all-zero counters return the
defined score 0 rather than failing. -/
theorem zero_rounds_score (ms : List Monkey) (h2 : 2 ≤ ms.length)
    (hz : ∀ m ∈ ms, m.num_inspections = 0) : monkeyBusiness ms 0 = some 0 := by
  have hmap : ms.map (fun m => m.num_inspections) = List.replicate ms.length 0 := by
    have hmem : ∀ b ∈ ms.map (fun m => m.num_inspections), b = 0 := by
      intro b hb
      obtain ⟨m, hm, rfl⟩ := List.mem_map.mp hb
      exact hz m hm
    have hrep := List.eq_replicate_of_mem hmem
    rwa [List.length_map] at hrep
  rw [monkeyBusiness_of_doRounds ms ms 0 rfl, hmap]
  simp only [topTwoProduct]
  rw [sortAsc_replicate_zero, List.reverse_replicate]
  obtain ⟨k, hk⟩ : ∃ k, ms.length = k + 2 := ⟨ms.length - 2, by omega⟩
  rw [hk, show k + 2 = k + 1 + 1 from rfl, List.replicate_succ, List.replicate_succ]

/-- C8 witness: the example input with zero rounds scores 0. -/
theorem zero_rounds_score_witness : monkeyBusiness exampleMonkeys 0 = some 0 :=
  zero_rounds_score exampleMonkeys (by decide) (by decide)

/-- C9: with fewer than two agents the call fails (returns no score), because
`inspections[0..=1]` is out of bounds. -/
theorem config_error_fewer_than_two (ms : List Monkey) (n : Nat) (h : ms.length < 2) :
    monkeyBusiness ms n = none := by
  cases hr : doRounds ((ms.map fun m => m.test_mod).prod) n ms with
  | none => exact monkeyBusiness_none_of_doRounds ms n hr
  | some final =>
    rw [monkeyBusiness_of_doRounds ms final n hr]
    have hlen : final.length = ms.length := doRounds_length _ hr
    simp only [topTwoProduct]
    cases hs : (sortAsc (final.map fun m => m.num_inspections)).reverse with
    | nil => rfl
    | cons a tail =>
      cases tail with
      | nil => rfl
      | cons b t2 =>
        exfalso
        have hfull : (sortAsc (final.map fun m => m.num_inspections)).reverse.length =
            final.length := by
          simp [List.length_reverse, length_sortAsc, List.length_map]
        rw [hs] at hfull
        simp only [List.length_cons] at hfull
        omega

/-- C9 witness: the empty agent list yields no score. -/
theorem config_error_fewer_than_two_witness : monkeyBusiness [] 3 = none :=
  config_error_fewer_than_two [] 3 (by decide)

/-- C10: a destination equal to the acting index (the `usize` underflow) or
at least the number of agents makes the throw panic, and then the whole turn
(hence the whole call) panics instead of appending the item. -/
theorem self_throw_panics (modulo i fuel : Nat) (ms : List Monkey) (m m' : Monkey)
    (t : ThrownItem) (hm : ms.get? i = some m) (hi : m.inspect_next modulo = some (t, m'))
    (hbad : t.to_monkey = i ∨ ms.length ≤ t.to_monkey) :
    throwTo i t (ms.set i m') = none ∧ doTurnAux modulo i (fuel + 1) ms = none := by
  have hnone : throwTo i t (ms.set i m') = none := by
    rw [throwTo_eq_none_iff]
    simpa [List.length_set] using hbad
  refine ⟨hnone, ?_⟩
  unfold doTurnAux
  rw [hm]; dsimp only
  rw [hi]; dsimp only
  rw [hnone]

/-- C10 witness: an agent whose both branch targets are itself panics on its
first inspection. -/
theorem self_throw_panics_witness :
    throwTo 0 ⟨0, 0⟩ ([selfMonkey].set 0 { selfMonkey with items := [], num_inspections := 1 }) =
      none ∧ doTurnAux 1 0 (0 + 1) [selfMonkey] = none :=
  self_throw_panics 1 0 0 [selfMonkey] selfMonkey
    { selfMonkey with items := [], num_inspections := 1 } ⟨0, 0⟩ rfl rfl (Or.inl rfl)

end AoC2022D11
